import Mathlib

/-!
Verification development for the CSV-to-email-template pipeline in
`csv_translations_to_email.py`.

The spreadsheet is modelled after parsing: a `ParsedCSV` is the header row
(`fields`, what `csv.DictReader.fieldnames` yields) together with the data
rows as lists of cells.  Delimiter sniffing and the byte-level CSV dialect
handling are the Python standard library's job and are not modelled; all
logic of the repository itself (header-shape detection, locale-to-header
matching, key normalisation, module-slot mapping, the two tables, and the
fragment builders) is translated function by function below.

Python dictionaries are modelled as association lists (`Dict`) with
insert-or-overwrite assignment (`dput`), preserving insertion order and
key uniqueness exactly as a `dict` does for the operations used here.
Python string operations are modelled character-wise on `String.data`.
-/

/-- Characters stripped by Python's `str.strip()`. -/
def isPyWhitespace (c : Char) : Bool :=
  c == ' ' || c == '\t' || c == '\n' || c == '\r' || c == '\x0b' || c == '\x0c'

/-- Remove trailing whitespace from a character list. -/
def stripEndL : List Char → List Char
  | [] => []
  | c :: cs =>
    match stripEndL cs with
    | [] => if isPyWhitespace c then [] else [c]
    | r => c :: r

/-- Remove leading and trailing whitespace (Python `str.strip()`). -/
def stripL (l : List Char) : List Char :=
  stripEndL (l.dropWhile isPyWhitespace)

/-- Python `s.strip()`. -/
def pystrip (s : String) : String := ⟨stripL s.data⟩

/-- Python `s.lower()` (ASCII case folding suffices for the keys used here). -/
def pylower (s : String) : String := ⟨s.data.map Char.toLower⟩

/-- Python `s.replace(" ", "")`. -/
def rmSpaces (s : String) : String := ⟨s.data.filter (fun c => !(c == ' '))⟩

/-- Python `s.replace("_", "")`. -/
def rmUnderscores (s : String) : String := ⟨s.data.filter (fun c => !(c == '_'))⟩

/-- Python `s.replace("-", "_")`. -/
def dashToUs (s : String) : String :=
  ⟨s.data.map (fun c => if c == '-' then '_' else c)⟩

/-- Python `s.replace("_", "-")`. -/
def usToDash (s : String) : String :=
  ⟨s.data.map (fun c => if c == '_' then '-' else c)⟩

/-- Python `str.replace` for a two-character pattern: left-to-right,
non-overlapping, the replacement is not rescanned. -/
def replace2 (a b : Char) (rep : List Char) : List Char → List Char
  | [] => []
  | [c] => [c]
  | c :: d :: rest =>
    if c == a && d == b then rep ++ replace2 a b rep rest
    else c :: replace2 a b rep (d :: rest)

/-- Python `str.replace` for a one-character pattern. -/
def replaceChar (c : Char) (rep : List Char) (l : List Char) : List Char :=
  (l.map (fun x => if x == c then rep else [x])).flatten

/-- Does `pat` occur at the start of the list? -/
def leadsWith : List Char → List Char → Bool
  | [], _ => true
  | _ :: _, [] => false
  | p :: ps, c :: cs => p == c && leadsWith ps cs

/-- Does `pat` occur anywhere in the list? -/
def containsL (pat : List Char) : List Char → Bool
  | [] => pat.isEmpty
  | c :: cs => leadsWith pat (c :: cs) || containsL pat cs

/-- Python `pat in s` for strings. -/
def strContains (s pat : String) : Bool := containsL pat.data s.data

/-- Normalisation applied to the `Key` and `Module` cells:
`.strip().lower().replace(" ", "")`. -/
def normKey (s : String) : String := rmSpaces (pylower (pystrip s))

/-- `_escape_liquid_raw`: neutralise literal Liquid tag delimiters. -/
def escapeLiquidRaw (s : String) : String :=
  if s = "" then ""
  else
    ⟨replace2 '%' '\x7d' "\x7b\x7b \x27%\x7d\x27 \x7d\x7d".data
      (replace2 '\x7b' '%' "\x7b\x7b \x27\x7b%\x27 \x7d\x7d".data s.data)⟩

/-- `_html_escape`: escape `&`, `<`, `>`, `"` in that order. -/
def htmlEscape (s : String) : String :=
  ⟨replaceChar '\x22' "&quot;".data
    (replaceChar '>' "&gt;".data
      (replaceChar '<' "&lt;".data
        (replaceChar '&' "&amp;".data s.data)))⟩

/-- `_normalise_url`: trim, keep empty as empty, default the scheme to https. -/
def normaliseUrl (url : String) : String :=
  let u := pystrip url
  if u = "" then ""
  else if strContains u "://" then u
  else "https://" ++ u

/-- A Python `dict` with string keys, as an insertion-ordered association list. -/
abbrev Dict (α : Type) := List (String × α)

/-- `d.get(k)` (as an `Option`). -/
def dget? {α : Type} : Dict α → String → Option α
  | [], _ => none
  | p :: t, k => if p.1 == k then some p.2 else dget? t k

/-- `d.get(k, dflt)`. -/
def dgetD {α : Type} (d : Dict α) (k : String) (dflt : α) : α :=
  (dget? d k).getD dflt

/-- `k in d`. -/
def dmem {α : Type} (k : String) (d : Dict α) : Bool :=
  (dget? d k).isSome

/-- `d[k] = v`: overwrite in place if present, append otherwise. -/
def dput {α : Type} : Dict α → String → α → Dict α
  | [], k, v => [(k, v)]
  | p :: t, k, v => if p.1 == k then (k, v) :: t else p :: dput t k v

/-- Locale columns in sheet order (`LOCALE_COLUMNS`). -/
def LOCALE_COLUMNS : List String := [
  "en", "ar", "zh-cn", "zh-tw", "zh-hk", "hr", "cs", "da", "nl", "en-gb",
  "fil", "fi", "fr", "fr-ca", "de", "el", "he", "hu", "id", "it", "ja", "ko",
  "ms", "no", "pl", "pt", "pt-br", "ro", "ru", "es", "es-419", "sv", "th",
  "tr", "uk", "vi"]

/-- `TRANSLATABLE_KEYS`. -/
def TRANSLATABLE_KEYS : List String := [
  "subject_line", "preheader", "headline", "headline_2", "secondary_headline",
  "body_1", "body_2", "cta_text",
  "app_download_title", "app_download_feature_1", "app_download_feature_2", "app_download_feature_3",
  "hero_two_col_body_1_h2", "hero_two_col_body_1_copy", "hero_two_col_body_2_h2", "hero_two_col_body_2_copy",
  "hero_two_col_body_3_h2", "hero_two_col_body_3_copy", "hero_two_col_body_4_h2", "hero_two_col_body_4_copy",
  "hero_two_col_cta_text",
  "terms_title", "terms_desc_text", "terms_label", "privacy_label",
  "usp_title", "usp_1_heading", "usp_1_copy", "usp_2_heading", "usp_2_copy",
  "usp_3_heading", "usp_3_copy",
  "usp_feature_title", "usp_feature_1_heading", "usp_feature_1_copy",
  "usp_feature_2_heading", "usp_feature_2_copy", "usp_feature_3_heading", "usp_feature_3_copy",
  "usp_ui_title", "usp_ui_1_heading", "usp_ui_1_copy",
  "usp_ui_2_heading", "usp_ui_2_copy", "usp_ui_3_heading", "usp_ui_3_copy"]

/-- `STRUCTURE_KEYS`. -/
def STRUCTURE_KEYS : List String := [
  "image_url", "image_url_mobile", "image_deeplink", "cta_link", "cta_alias",
  "app_store_rating", "google_play_rating", "app_download_colour",
  "hero_two_col_image_1_url", "hero_two_col_image_2_url", "hero_two_col_image_3_url", "hero_two_col_image_4_url",
  "usp_1_icon_url", "usp_2_icon_url", "usp_3_icon_url",
  "usp_feature_1_image_url", "usp_feature_2_image_url", "usp_feature_3_image_url",
  "usp_ui_1_image_url", "usp_ui_2_image_url", "usp_ui_3_image_url"]

/-- `MODULE_KEY_MAP`: `(module, key) -> internal key` for the Module CSV format. -/
def MODULE_KEY_MAP : List ((String × String) × String) := [
  (("hero_module", "subject_line"), "subject_line"),
  (("hero_module", "preheader"), "preheader"),
  (("hero_module", "headline"), "headline"),
  (("hero_module", "body_1"), "body_1"),
  (("hero_module", "body_2"), "body_2"),
  (("hero_module", "cta_text"), "cta_text"),
  (("hero_module", "image_url"), "image_url"),
  (("hero_module", "image_url_mobile"), "image_url_mobile"),
  (("hero_module", "image_deeplink"), "image_deeplink"),
  (("hero_module", "cta_link"), "cta_link"),
  (("hero_module", "cta_alias"), "cta_alias"),
  (("hero_module_two_column", "subject_line"), "subject_line"),
  (("hero_module_two_column", "preheader"), "preheader"),
  (("hero_module_two_column", "headline"), "headline"),
  (("hero_module_two_column", "subheadline"), "secondary_headline"),
  (("hero_module_two_column", "body_1_h2"), "hero_two_col_body_1_h2"),
  (("hero_module_two_column", "body_1_copy"), "hero_two_col_body_1_copy"),
  (("hero_module_two_column", "image_1_url"), "hero_two_col_image_1_url"),
  (("hero_module_two_column", "body_2_h2"), "hero_two_col_body_2_h2"),
  (("hero_module_two_column", "body_2_copy"), "hero_two_col_body_2_copy"),
  (("hero_module_two_column", "image_2_url"), "hero_two_col_image_2_url"),
  (("hero_module_two_column", "body_3_h2"), "hero_two_col_body_3_h2"),
  (("hero_module_two_column", "body_3_copy"), "hero_two_col_body_3_copy"),
  (("hero_module_two_column", "image_3_url"), "hero_two_col_image_3_url"),
  (("hero_module_two_column", "body_4_h2"), "hero_two_col_body_4_h2"),
  (("hero_module_two_column", "body_4_copy"), "hero_two_col_body_4_copy"),
  (("hero_module_two_column", "image_4_url"), "hero_two_col_image_4_url"),
  (("hero_module_two_column", "cta_text"), "hero_two_col_cta_text"),
  (("hero_module_two_column", "hero_image_url"), "image_url"),
  (("hero_module_two_column", "image_deeplink"), "image_deeplink"),
  (("hero_module_two_column", "cta_link"), "cta_link"),
  (("hero_module_two_column", "cta_alias"), "cta_alias"),
  (("app_download_module", "headline"), "app_download_title"),
  (("app_download_module", "feature_1"), "app_download_feature_1"),
  (("app_download_module", "feature_2"), "app_download_feature_2"),
  (("app_download_module", "feature_3"), "app_download_feature_3"),
  (("app_download_module", "colour"), "app_download_colour"),
  (("app_download_module", "color"), "app_download_colour"),
  (("disclaimer_module", "terms_title"), "terms_title"),
  (("disclaimer_module", "terms_desc"), "terms_desc_text"),
  (("disclaimer_module", "terms_desc_text"), "terms_desc_text"),
  (("disclaimer_module", "terms_label"), "terms_label"),
  (("disclaimer_module", "privacy_label"), "privacy_label"),
  (("icon_left_text_right_module", "title"), "usp_title"),
  (("icon_left_text_right_module", "usp_1_heading"), "usp_1_heading"),
  (("icon_left_text_right_module", "usp_1_copy"), "usp_1_copy"),
  (("icon_left_text_right_module", "usp_1_icon_url"), "usp_1_icon_url"),
  (("icon_left_text_right_module", "usp_2_heading"), "usp_2_heading"),
  (("icon_left_text_right_module", "usp_2_copy"), "usp_2_copy"),
  (("icon_left_text_right_module", "usp_2_icon_url"), "usp_2_icon_url"),
  (("icon_left_text_right_module", "usp_3_heading"), "usp_3_heading"),
  (("icon_left_text_right_module", "usp_3_copy"), "usp_3_copy"),
  (("icon_left_text_right_module", "usp_3_icon_url"), "usp_3_icon_url"),
  (("text_left_image_right_module", "title"), "usp_feature_title"),
  (("text_left_image_right_module", "usp_feature_1_heading"), "usp_feature_1_heading"),
  (("text_left_image_right_module", "usp_feature_1_copy"), "usp_feature_1_copy"),
  (("text_left_image_right_module", "usp_feature_1_image_url"), "usp_feature_1_image_url"),
  (("text_left_image_right_module", "usp_feature_2_heading"), "usp_feature_2_heading"),
  (("text_left_image_right_module", "usp_feature_2_copy"), "usp_feature_2_copy"),
  (("text_left_image_right_module", "usp_feature_2_image_url"), "usp_feature_2_image_url"),
  (("text_left_image_right_module", "usp_feature_3_heading"), "usp_feature_3_heading"),
  (("text_left_image_right_module", "usp_feature_3_copy"), "usp_feature_3_copy"),
  (("text_left_image_right_module", "usp_feature_3_image_url"), "usp_feature_3_image_url"),
  (("alternating_text_image_module", "title"), "usp_ui_title"),
  (("alternating_text_image_module", "usp_ui_1_heading"), "usp_ui_1_heading"),
  (("alternating_text_image_module", "usp_ui_1_copy"), "usp_ui_1_copy"),
  (("alternating_text_image_module", "usp_ui_1_image_url"), "usp_ui_1_image_url"),
  (("alternating_text_image_module", "usp_ui_2_heading"), "usp_ui_2_heading"),
  (("alternating_text_image_module", "usp_ui_2_copy"), "usp_ui_2_copy"),
  (("alternating_text_image_module", "usp_ui_2_image_url"), "usp_ui_2_image_url"),
  (("alternating_text_image_module", "usp_ui_3_heading"), "usp_ui_3_heading"),
  (("alternating_text_image_module", "usp_ui_3_copy"), "usp_ui_3_copy"),
  (("alternating_text_image_module", "usp_ui_3_image_url"), "usp_ui_3_image_url")]

/-- Raw lookup in `MODULE_KEY_MAP`. -/
def mkmLookup (m k : String) : Option String :=
  (MODULE_KEY_MAP.find? (fun e => e.1.1 == m && e.1.2 == k)).map (fun e => e.2)

/-- The module-slot resolution used by `load_translations` (lines 399-401):
an exact lookup, then a second attempt with underscores stripped from the key. -/
def resolveModuleField (moduleRaw keyRaw : String) : Option String :=
  match mkmLookup moduleRaw keyRaw with
  | some k => some k
  | none => mkmLookup moduleRaw (rmUnderscores keyRaw)

/-- A parsed spreadsheet: `fields` is `reader.fieldnames` (empty when the
file yields no header at all), `rows` the data rows as cell lists. -/
structure ParsedCSV where
  fields : List String
  rows : List (List String)

/-- `DictReader` cell access `row.get(col)`: the column named `col` (later
duplicate header names shadow earlier ones, as in `dict(zip(fieldnames, row))`);
missing cells read as `""`. -/
def headerIndex (fields : List String) (col : String) : Option Nat :=
  ((List.range fields.length).filter (fun i => fields.getD i "" == col)).getLast?

/-- The cell of `row` under header `col` (empty when absent). -/
def rowCell (fields row : List String) (col : String) : String :=
  match headerIndex fields col with
  | some i => row.getD i ""
  | none => ""

/-- Header-shape detection shared by `get_csv_locales` and `load_translations`:
column 1 is literally `module` and column 2 normalises to `module_index`. -/
def isModuleFormat (fields : List String) : Bool :=
  decide (fields.length ≥ 3)
    && (pylower (pystrip (fields.getD 1 "")) == "module")
    && (rmSpaces (pylower (pystrip (fields.getD 2 ""))) == "module_index")

/-- Header match used by `get_csv_locales`: exact match on the stripped
header, or case/space/hyphen-underscore-insensitive match. -/
def gclMatch (loc h : String) : Bool :=
  (loc == pystrip h)
    || (pylower (dashToUs loc) == rmSpaces (dashToUs (pylower (pystrip h))))

/-- The locale header columns (the header row past `Key`, or past
`module_index` in the Module format). -/
def localeHeadersOf (fields : List String) : List String :=
  fields.drop (if isModuleFormat fields then 3 else 1)

/-- The non-blank locale headers considered by `get_csv_locales` (line 318). -/
def gclLocaleHeaders (fields : List String) : List String :=
  (localeHeadersOf fields).filter (fun h => pystrip h ≠ "")

/-- `get_csv_locales` on the header row: locale codes found, in
`LOCALE_COLUMNS` order, defaulting to `["en"]`. -/
def get_csv_locales (fields : List String) : List String :=
  let localeHeaders := gclLocaleHeaders fields
  let found := LOCALE_COLUMNS.filter (fun loc => localeHeaders.any (fun h => gclMatch loc h))
  let found2 :=
    if found.isEmpty && !localeHeaders.isEmpty then
      (localeHeaders.map pystrip).filter (fun hc => LOCALE_COLUMNS.contains hc)
    else found
  if found2.isEmpty then ["en"] else found2

/-- Locale-header match used by `load_translations` (lines 376-377). -/
def ltHeaderMatch (loc h : String) : Bool :=
  !(h == "")
    && (let hnorm := usToDash (rmSpaces (pylower (pystrip h)))
        (loc == hnorm) || (dashToUs loc == dashToUs hnorm))

/-- `locale_to_header` (lines 371-383): a named match first, then the
positional fallback at the locale's index in `LOCALE_COLUMNS` (storing the
stripped header name). -/
def localeToHeader (localeHeaders : List String) (loc : String) : Option String :=
  match localeHeaders.find? (fun h => ltHeaderMatch loc h) with
  | some h => some h
  | none =>
    if LOCALE_COLUMNS.contains loc then
      let idx := LOCALE_COLUMNS.findIdx (fun c => c == loc)
      match localeHeaders.get? idx with
      | some h => if pystrip h ≠ "" then some (pystrip h) else none
      | none => none
    else none

/-- The stripped cell of `row` for locale `loc` (`""` when the locale has no
header), line 395. -/
def localeCellVal (fields localeHeaders : List String) (row : List String) (loc : String) : String :=
  match localeToHeader localeHeaders loc with
  | some h => pystrip (rowCell fields row h)
  | none => ""

/-- `values_by_locale` (lines 392-396): one stripped cell per requested locale. -/
def mkValuesRow (fields localeHeaders : List String) (locales : List String) (row : List String) : Dict String :=
  locales.foldl (fun acc loc => dput acc loc (localeCellVal fields localeHeaders row loc)) []

/-- English backfill for a translatable row (lines 416-419): blank locale
values are replaced by the row's `en` value. -/
def backfillRow (locales : List String) (vrow : Dict String) (enVal : String) : Dict String :=
  locales.foldl (fun acc loc => if pystrip (dgetD acc loc "") = "" then dput acc loc enVal else acc) vrow

/-- Structural-key resolution and store (lines 407-414): the first non-blank
value scanning the requested locales in order, else the `en` value — but the
`en` fallback fires only when the key is not already in the table. -/
def structPut (s : Dict String) (k : String) (locales : List String) (vrow : Dict String) : Dict String :=
  match locales.findSome? (fun loc =>
      let v := pystrip (dgetD vrow loc "")
      if v = "" then none else some v) with
  | some v => dput s k v
  | none => if dmem k s then s else dput s k (pystrip (dgetD vrow "en" ""))

/-- The internal content key a data row resolves to (lines 388-405): the
normalised `Key` cell (skipping blank keys), mapped through
`resolveModuleField` in the Module format; `none` means the row is skipped. -/
def rowInternalKey? (fields : List String) (row : List String) : Option String :=
  let useModule := isModuleFormat fields
  let keyRaw := normKey (rowCell fields row (fields.getD 0 ""))
  if keyRaw = "" then none
  else
    let moduleRaw := if useModule then normKey (rowCell fields row (fields.getD 1 "")) else ""
    if useModule && !(moduleRaw == "") then resolveModuleField moduleRaw keyRaw
    else some keyRaw

/-- The `values_by_locale` dictionary of one data row. -/
def rowValues (fields : List String) (locales : List String) (row : List String) : Dict String :=
  mkValuesRow fields (localeHeadersOf fields) locales row

/-- The backfilled row stored in the translation table for one data row
(lines 415-420). -/
def translatableResult (fields : List String) (locales : List String) (row : List String) : Dict String :=
  let vrow := rowValues fields locales row
  backfillRow locales vrow (pystrip (dgetD vrow "en" ""))

/-- Processing of one data row of `load_translations` (lines 387-420). -/
def processRow (fields : List String) (locales : List String)
    (st : Dict (Dict String) × Dict String) (row : List String) :
    Dict (Dict String) × Dict String :=
  match rowInternalKey? fields row with
  | none => st
  | some internalKey =>
    if STRUCTURE_KEYS.contains internalKey then
      (st.1, structPut st.2 internalKey locales (rowValues fields locales row))
    else
      (dput st.1 internalKey (translatableResult fields locales row), st.2)

/-- `load_translations`: build the translation and structure tables.  A falsy
`include_locales` (absent or empty) means the locales are inferred from the
header; an empty header yields two empty tables. -/
def load_translations (csv : ParsedCSV) (includeLocales : Option (List String)) :
    Dict (Dict String) × Dict String :=
  let locales :=
    match includeLocales with
    | some ls => if ls.isEmpty then get_csv_locales csv.fields else ls
    | none => get_csv_locales csv.fields
  if csv.fields.isEmpty then ([], [])
  else csv.rows.foldl (processRow csv.fields locales) ([], [])

/-- The value emitted in one `when` clause of `build_content_captures`
(line 439-441): the stored locale value, backfilled from `en` when blank,
then Liquid-escaped. -/
def whenValue (vals : Dict String) (loc : String) : String :=
  escapeLiquidRaw
    (let v := pystrip (dgetD vals loc "")
     if v = "" then pystrip (dgetD vals "en" "") else v)

/-- The capture block emitted for one translatable key (lines 436-444). -/
def captureLinesFor (key : String) (vals : Dict String) (locales : List String) : List String :=
  ["\x7b%- capture " ++ key ++ " -%\x7d", "  \x7b%- case locale_key -%\x7d"]
  ++ locales.map (fun loc => "    \x7b%- when \x22" ++ loc ++ "\x22 -%\x7d" ++ whenValue vals loc)
  ++ ["    \x7b%- else -%\x7d" ++ escapeLiquidRaw (pystrip (dgetD vals "en" "")),
      "  \x7b%- endcase -%\x7d", "\x7b%- endcapture -%\x7d"]

/-- `build_content_captures`: one conditional Liquid capture per translatable
key present in the table, enumerating the requested locales (all of
`LOCALE_COLUMNS` when no list is given). -/
def build_content_captures (t : Dict (Dict String)) (includeLocales : Option (List String)) : String :=
  let locales := includeLocales.getD LOCALE_COLUMNS
  String.intercalate "\n"
    ((TRANSLATABLE_KEYS.map (fun key =>
        match dget? t key with
        | some vals => captureLinesFor key vals locales
        | none => [])).flatten)

/-- `build_rows_above_image`: headline rows; the two-column hero variant is
detected by the presence of `hero_two_col_body_1_h2`. -/
def build_rows_above_image (t : Dict (Dict String)) : String :=
  let hasHeadline := dmem "headline" t
  let hasH2 := dmem "headline_2" t
  let hasSh := dmem "secondary_headline" t
  if !(hasHeadline || hasH2 || hasSh) then ""
  else
    let isTwoCol := dmem "hero_two_col_body_1_h2" t
    let parts : List String :=
      ["<tr>"]
      ++ (if isTwoCol then
            ["  <td style=\x22padding:\x7b\x7b token_space_300 \x7d\x7d 0 \x7b\x7b token_space_500 \x7d\x7d;text-align:center;direction:\x7b\x7b dir \x7d\x7d;\x22>"]
            ++ (if hasSh then
                 ["    <p style=\x22margin:0;font-family:\x7b\x7b token_font_stack \x7d\x7d;font-weight:700;font-size:30px;line-height:120%;letter-spacing:0;color:\x7b\x7b token_neutral_c900 \x7d\x7d;direction:\x7b\x7b dir \x7d\x7d;unicode-bidi:plaintext;\x22>\x7b\x7b secondary_headline | strip \x7d\x7d</p>"]
               else [])
            ++ (if hasHeadline then
                 ["    <table role=\x22presentation\x22 width=\x22498\x22 cellpadding=\x220\x22 cellspacing=\x220\x22 border=\x220\x22 align=\x22center\x22 class=\x22email-hero-two-col-headline-box\x22 style=\x22margin:\x7b\x7b token_space_300 \x7d\x7d auto 0 auto;width:498px;max-width:100%;height:116px;border-collapse:collapse;\x22><tr><td align=\x22center\x22 valign=\x22middle\x22 style=\x22padding:0;vertical-align:middle;height:116px;\x22>",
                  "      <h1 style=\x22margin:0;font-family:\x7b\x7b token_font_stack \x7d\x7d;font-weight:700;font-size:48px;line-height:120%;letter-spacing:0;color:\x7b\x7b token_accent \x7d\x7d;text-align:center;direction:\x7b\x7b dir \x7d\x7d;unicode-bidi:plaintext;\x22>\x7b\x7b headline | strip \x7d\x7d</h1>",
                  "    </td></tr></table>"]
               else [])
          else
            ["  <td style=\x22padding: \x7b\x7b token_space_300 \x7d\x7d 0 \x7b\x7b token_space_500 \x7d\x7d; text-align: \x7b\x7b headline_align \x7d\x7d; direction: \x7b\x7b dir \x7d\x7d;\x22>"]
            ++ (if hasHeadline then
                 ["    <h1 style=\x22margin:0;font-family:\x7b\x7b token_font_stack \x7d\x7d;font-size:32px;line-height:38px;color:\x7b\x7b token_accent \x7d\x7d;font-weight:600;direction:\x7b\x7b dir \x7d\x7d;unicode-bidi:plaintext;\x22>\x7b\x7b headline | strip \x7d\x7d</h1>"]
               else [])
            ++ (if hasH2 then
                 ["    <p style=\x22margin:\x7b\x7b token_space_500 \x7d\x7d 0 0 0;font-family:\x7b\x7b token_font_stack \x7d\x7d;font-size:22px;line-height:28px;font-weight:600;color:\x7b\x7b token_accent \x7d\x7d;direction:\x7b\x7b dir \x7d\x7d;unicode-bidi:plaintext;\x22>\x7b\x7b headline_2 | strip \x7d\x7d</p>"]
               else [])
            ++ (if hasSh then
                 ["    <p style=\x22margin:\x7b\x7b token_space_500 \x7d\x7d 0 0 0;font-family:\x7b\x7b token_font_stack \x7d\x7d;font-size:16px;line-height:22px;font-weight:450;color:\x7b\x7b token_text_primary \x7d\x7d;direction:\x7b\x7b dir \x7d\x7d;unicode-bidi:plaintext;\x22>\x7b\x7b secondary_headline | strip \x7d\x7d</p>"]
               else []))
      ++ ["  </td>", "</tr>"]
    String.intercalate "\n" parts

/-- The fixed `img_attrs` attribute string of `build_image_row`. -/
def imgAttrs : String :=
  "width=\x22728\x22 alt=\x22\x22 style=\x22display:block;width:100%;max-width:728px;height:auto;border:0;outline:none;text-decoration:none;\x22"

/-- The `wrap_a` helper of `build_image_row` (line 488): an image tag,
link-wrapped when a deeplink is present. -/
def wrapA (imgLink url : String) : String :=
  (if !(imgLink == "") then
      "<a href=\x22" ++ htmlEscape imgLink
        ++ "\x22 target=\x22_blank\x22 style=\x22display:block;text-decoration:none;border:0;outline:none;\x22>"
    else "")
  ++ "<img src=\x22" ++ htmlEscape url ++ "\x22 " ++ imgAttrs ++ " />"
  ++ (if !(imgLink == "") then "</a>" else "")

/-- `build_image_row`: hero image row, empty when no `image_url`. -/
def build_image_row (s : Dict String) : String :=
  let imgUrl := pystrip (dgetD s "image_url" "")
  if imgUrl = "" then ""
  else
    let imgMobile := let m := pystrip (dgetD s "image_url_mobile" ""); if m = "" then imgUrl else m
    let imgLink := normaliseUrl (dgetD s "image_deeplink" "")
    if !(imgMobile == imgUrl) then
      "<span class=\x22email-img-desktop\x22>" ++ wrapA imgLink imgUrl ++ "</span>"
        ++ "<span class=\x22email-img-mobile\x22>" ++ wrapA imgLink imgMobile ++ "</span>"
    else if !(imgLink == "") then
      "<a href=\x22" ++ htmlEscape imgLink
        ++ "\x22 target=\x22_blank\x22 style=\x22display:block;text-decoration:none;border:0;outline:none;\x22><img src=\x22"
        ++ htmlEscape imgUrl ++ "\x22 " ++ imgAttrs ++ " /></a>"
    else
      "<img src=\x22" ++ htmlEscape imgUrl ++ "\x22 " ++ imgAttrs ++ " />"

/-- `build_rows_below_image`: body and CTA rows; empty when the two-column
hero content (`hero_two_col_body_1_h2`) is present. -/
def build_rows_below_image (t : Dict (Dict String)) (s : Dict String) : String :=
  if dmem "hero_two_col_body_1_h2" t then ""
  else
    let hasBody1 := dmem "body_1" t
    let hasBody2 := dmem "body_2" t
    let hasCta := dmem "cta_text" t
    let ctaLink := normaliseUrl (dgetD s "cta_link" "")
    let ctaAlias := pystrip (let v := dgetD s "cta_alias" ""; if v = "" then "hero-cta" else v)
    let parts : List String :=
      (if hasBody1 || hasBody2 then
        ["<tr>",
         "  <td style=\x22padding:\x7b\x7b token_space_700 \x7d\x7d 0 0;direction:\x7b\x7b dir \x7d\x7d;text-align:\x7b\x7b align \x7d\x7d;\x22>"]
        ++ (if hasBody1 then
             ["    <p style=\x22margin:0 0 \x7b\x7b token_space_600 \x7d\x7d 0;font-size:16px;line-height:24px;color:\x7b\x7b token_text_body \x7d\x7d;font-weight:400;letter-spacing:normal;font-family:\x7b\x7b token_font_stack \x7d\x7d;direction:\x7b\x7b dir \x7d\x7d;unicode-bidi:plaintext;\x22>\x7b\x7b body_1 | strip \x7d\x7d</p>"]
           else [])
        ++ (if hasBody2 then
             ["    <p style=\x22margin:0 0 \x7b\x7b token_space_600 \x7d\x7d 0;font-size:16px;line-height:24px;color:\x7b\x7b token_text_body \x7d\x7d;font-weight:400;letter-spacing:normal;font-family:\x7b\x7b token_font_stack \x7d\x7d;direction:\x7b\x7b dir \x7d\x7d;unicode-bidi:plaintext;\x22>\x7b\x7b body_2 | strip \x7d\x7d</p>"]
           else [])
        ++ ["  </td>", "</tr>"]
       else [])
      ++ (if hasCta && !(ctaLink == "") then
            ["<tr>",
             "  <td align=\x22center\x22 style=\x22padding:0 0 \x7b\x7b token_space_600 \x7d\x7d;\x22>",
             "    <a href=\x22" ++ htmlEscape ctaLink
               ++ "\x22 target=\x22_blank\x22 data-cio-tag=\x22" ++ htmlEscape ctaAlias
               ++ "\x22 style=\x22display:block;width:100%;background:\x7b\x7b token_cta_bg \x7d\x7d;color:\x7b\x7b token_text_on_brand \x7d\x7d;text-align:center;font-weight:600;font-size:16px;line-height:20px;padding:\x7b\x7b token_space_400 \x7d\x7d 0;border-radius:8px;letter-spacing:normal;font-family:\x7b\x7b token_font_stack \x7d\x7d;text-decoration:none;\x22>\x7b\x7b cta_text | strip \x7d\x7d</a>",
             "  </td>", "</tr>"]
          else [])
    String.intercalate "\n" parts

/-- The star image URL of the app-download ratings row (line 550). -/
def starUrl : String :=
  "https://price-watch-email-images-explicit-prod-master.s3.eu-west-1.amazonaws.com/199cd19b/images/star-yellow.png"

/-- The single star image of the app-download ratings row (line 551). -/
def starImg (starUrl : String) : String :=
  "<img alt=\x22★\x22 height=\x2212\x22 src=\x22"
    ++ (starUrl)
    ++ "\x22 style=\x22display:inline-block;outline:none;border:none;text-decoration:none;padding-right:2px\x22 width=\x2212\x22/>"

/-- Body of the app-download module (lines 552-614). -/
def appDownloadBody (starRow appRating googleRating : String) : String :=
  "\x7b%- if app_download_title != blank -%\x7d\n<tr><td style=\x22padding:0;vertical-align:top;\x22>\n<table role=\x22presentation\x22 width=\x22100%\x22 cellpadding=\x220\x22 cellspacing=\x220\x22 border=\x220\x22 class=\x22email-app-module-outer\x22 style=\x22width:100%;margin-top:\x7b\x7b token_space_600 \x7d\x7d;\x22>\n  <tbody>\n    <tr>\n      <td align=\x22center\x22 style=\x22padding:0;\x22>\n        <table align=\x22center\x22 width=\x22588\x22 border=\x220\x22 cellpadding=\x220\x22 cellspacing=\x220\x22 role=\x22presentation\x22 class=\x22email-app-card\x22 style=\x22width:588px;max-width:100%;background-color:\x7b\x7b app_download_colour \x7d\x7d;padding:\x7b\x7b token_space_600 \x7d\x7d \x7b\x7b token_space_900 \x7d\x7d;color:\x7b\x7b app_download_text_colour \x7d\x7d;border-radius:\x7b\x7b token_radius_module \x7d\x7d;margin:0 auto \x7b\x7b token_space_600 \x7d\x7d auto;text-align:left;box-sizing:border-box\x22>\n          <tbody>\n            <tr>\n              <td style=\x22font-family:Campton, Circular, Helvetica, Arial, sans-serif;\x22>\n                <a href=\x22\x7b\x7b app_deeplink_url \x7d\x7d\x22 data-cio-tag=\x22AppBanner-emailPriceAlertBannerTitle\x22 style=\x22text-decoration:none;color:\x7b\x7b app_download_text_colour \x7d\x7d\x22>\n                  <p style=\x22font-size:20px;line-height:28px;font-weight:600;letter-spacing:normal;font-family:\x7b\x7b token_font_stack \x7d\x7d;text-align:left;margin:0;color:\x7b\x7b app_download_text_colour \x7d\x7d;padding-top:0;padding-bottom:\x7b\x7b token_space_400 \x7d\x7d;padding-right:0;padding-left:0;direction:\x7b\x7b dir \x7d\x7d;unicode-bidi:plaintext;\x22>\n                    \x7b\x7b app_download_title | strip \x7d\x7d\n                  </p>\n                </a>\n                <table role=\x22presentation\x22 width=\x22100%\x22 border=\x220\x22 cellpadding=\x220\x22 cellspacing=\x220\x22 class=\x22email-app-stores\x22 style=\x22border-collapse:collapse;width:100%\x22>\n                  <tr>\n                    <td valign=\x22middle\x22 class=\x22email-app-store-cell\x22 style=\x22width:50%;padding:0;padding-right:20px;vertical-align:middle\x22>\n                      <table role=\x22presentation\x22 border=\x220\x22 cellpadding=\x220\x22 cellspacing=\x220\x22 style=\x22border-collapse:collapse\x22>\n                        <tr>\n                          <td valign=\x22middle\x22 style=\x22padding:0;vertical-align:middle\x22>\n                            <a href=\x22\x7b\x7b app_deeplink_url \x7d\x7d\x22 data-cio-tag=\x22AppBanner-apple-store-img\x22 style=\x22display:inline-block;text-decoration:none\x22>\n                              <img alt=\x22Download on App Store\x22 src=\x22\x7b app_store_badge_url \x7d\x22 style=\x22display:block;outline:none;border:none;text-decoration:none;max-height:40px\x22 height=\x2240\x22/>\n                            </a>\n                          </td>\n                          <td valign=\x22middle\x22 style=\x22padding-left:12px;vertical-align:middle\x22>\n                            <table role=\x22presentation\x22 border=\x220\x22 cellpadding=\x220\x22 cellspacing=\x220\x22 style=\x22border-collapse:collapse\x22>\n                              <tr><td style=\x22padding:0\x22>"
    ++ (starRow)
    ++ "</td></tr>\n                              <tr><td style=\x22padding:2px 0 0 0;font-size:12px;line-height:16px;font-weight:450;font-family:\x7b\x7b token_font_stack \x7d\x7d;color:\x7b\x7b app_download_text_colour \x7d\x7d;letter-spacing:normal;direction:\x7b\x7b dir \x7d\x7d;unicode-bidi:plaintext;\x22>"
    ++ (htmlEscape appRating)
    ++ "</td></tr>\n                            </table>\n                          </td>\n                        </tr>\n                      </table>\n                    </td>\n                    <td valign=\x22middle\x22 class=\x22email-app-store-cell\x22 style=\x22width:50%;padding:0;vertical-align:middle\x22>\n                      <table role=\x22presentation\x22 border=\x220\x22 cellpadding=\x220\x22 cellspacing=\x220\x22 style=\x22border-collapse:collapse\x22>\n                        <tr>\n                          <td valign=\x22middle\x22 style=\x22padding:0;vertical-align:middle\x22>\n                            <a href=\x22\x7b\x7b app_deeplink_url \x7d\x7d\x22 data-cio-tag=\x22AppBanner-google-store-img\x22 style=\x22display:inline-block;text-decoration:none\x22>\n                              <img alt=\x22Get it on Google Play\x22 src=\x22\x7b google_play_badge_url \x7d\x22 style=\x22display:block;outline:none;border:none;text-decoration:none;max-height:40px\x22 height=\x2240\x22/>\n                            </a>\n                          </td>\n                          <td valign=\x22middle\x22 style=\x22padding-left:12px;vertical-align:middle\x22>\n                            <table role=\x22presentation\x22 border=\x220\x22 cellpadding=\x220\x22 cellspacing=\x220\x22 style=\x22border-collapse:collapse\x22>\n                              <tr><td style=\x22padding:0\x22>"
    ++ (starRow)
    ++ "</td></tr>\n                              <tr><td style=\x22padding:2px 0 0 0;font-size:12px;line-height:16px;font-weight:450;font-family:\x7b\x7b token_font_stack \x7d\x7d;color:\x7b\x7b app_download_text_colour \x7d\x7d;letter-spacing:normal;direction:\x7b\x7b dir \x7d\x7d;unicode-bidi:plaintext;\x22>"
    ++ (htmlEscape googleRating)
    ++ "</td></tr>\n                            </table>\n                          </td>\n                        </tr>\n                      </table>\n                    </td>\n                  </tr>\n                </table>\n              </td>\n            </tr>\n          </tbody>\n        </table>\n      </td>\n    </tr>\n  </tbody>\n</table>\n</td></tr>\n\x7b%- endif -%\x7d"

/-- Body of the two-column hero feature module (lines 633-721). -/
def heroTwoColumnBody (textStyle bodyStyle img1 img2 img3 img4 ctaHref ctaTag : String) : String :=
  "\x7b%- if hero_two_col_body_1_h2 != blank -%\x7d\n<tr><td style=\x22padding:0;vertical-align:top;\x22>\n<table role=\x22presentation\x22 width=\x22100%\x22 cellpadding=\x220\x22 cellspacing=\x220\x22 border=\x220\x22 class=\x22email-feature-module-outer\x22 style=\x22width:100%;margin-top:\x7b\x7b token_space_900 \x7d\x7d\x22>\n  <tbody>\n    <tr>\n      <td>\n        <table role=\x22presentation\x22 width=\x22100%\x22 cellpadding=\x220\x22 cellspacing=\x220\x22 border=\x220\x22 style=\x22width:100%;border-collapse:collapse;\x22>\n          <tr class=\x22email-feature-row\x22>\n            <td width=\x2250%\x22 valign=\x22middle\x22 class=\x22email-feature-col\x22 style=\x22padding:0 20px 32px 0;vertical-align:middle;\x22>\n              <table role=\x22presentation\x22 width=\x22100%\x22 cellpadding=\x220\x22 cellspacing=\x220\x22 border=\x220\x22>\n                <tr><td>\n                  <h2 style=\x22"
    ++ (textStyle)
    ++ "\x22>\x7b\x7b hero_two_col_body_1_h2 | strip \x7d\x7d</h2>\n                  <p style=\x22"
    ++ (bodyStyle)
    ++ "\x22>\x7b\x7b hero_two_col_body_1_copy | strip \x7d\x7d</p>\n                </td></tr>\n              </table>\n            </td>\n            <td width=\x2250%\x22 valign=\x22middle\x22 class=\x22email-feature-col\x22 style=\x22padding:0 0 32px 20px;vertical-align:middle;\x22>\n              <table role=\x22presentation\x22 width=\x22100%\x22 cellpadding=\x220\x22 cellspacing=\x220\x22 border=\x220\x22>\n                <tr><td align=\x22center\x22>\n                  <img src=\x22"
    ++ (htmlEscape img1)
    ++ "\x22 alt=\x22\x7b\x7b hero_two_col_body_1_h2 | strip \x7d\x7d\x22 width=\x22260\x22 height=\x22180\x22 style=\x22display:block;max-width:100%;height:auto;\x22 />\n                </td></tr>\n              </table>\n            </td>\n          </tr>\n          <tr class=\x22email-feature-row\x22>\n            <td width=\x2250%\x22 valign=\x22middle\x22 class=\x22email-feature-col\x22 style=\x22padding:0 20px 32px 0;vertical-align:middle;\x22>\n              <table role=\x22presentation\x22 width=\x22100%\x22 cellpadding=\x220\x22 cellspacing=\x220\x22 border=\x220\x22>\n                <tr><td align=\x22center\x22>\n                  <img src=\x22"
    ++ (htmlEscape img2)
    ++ "\x22 alt=\x22\x7b\x7b hero_two_col_body_2_h2 | strip \x7d\x7d\x22 width=\x22260\x22 height=\x22180\x22 style=\x22display:block;max-width:100%;height:auto;\x22 />\n                </td></tr>\n              </table>\n            </td>\n            <td width=\x2250%\x22 valign=\x22middle\x22 class=\x22email-feature-col\x22 style=\x22padding:0 0 32px 20px;vertical-align:middle;\x22>\n              <table role=\x22presentation\x22 width=\x22100%\x22 cellpadding=\x220\x22 cellspacing=\x220\x22 border=\x220\x22>\n                <tr><td>\n                  <h2 style=\x22"
    ++ (textStyle)
    ++ "\x22>\x7b\x7b hero_two_col_body_2_h2 | strip \x7d\x7d</h2>\n                  <p style=\x22"
    ++ (bodyStyle)
    ++ "\x22>\x7b\x7b hero_two_col_body_2_copy | strip \x7d\x7d</p>\n                </td></tr>\n              </table>\n            </td>\n          </tr>\n          <tr class=\x22email-feature-row\x22>\n            <td width=\x2250%\x22 valign=\x22middle\x22 class=\x22email-feature-col\x22 style=\x22padding:0 20px 32px 0;vertical-align:middle;\x22>\n              <table role=\x22presentation\x22 width=\x22100%\x22 cellpadding=\x220\x22 cellspacing=\x220\x22 border=\x220\x22>\n                <tr><td>\n                  <h2 style=\x22"
    ++ (textStyle)
    ++ "\x22>\x7b\x7b hero_two_col_body_3_h2 | strip \x7d\x7d</h2>\n                  <p style=\x22"
    ++ (bodyStyle)
    ++ "\x22>\x7b\x7b hero_two_col_body_3_copy | strip \x7d\x7d</p>\n                </td></tr>\n              </table>\n            </td>\n            <td width=\x2250%\x22 valign=\x22middle\x22 class=\x22email-feature-col\x22 style=\x22padding:0 0 32px 20px;vertical-align:middle;\x22>\n              <table role=\x22presentation\x22 width=\x22100%\x22 cellpadding=\x220\x22 cellspacing=\x220\x22 border=\x220\x22>\n                <tr><td align=\x22center\x22>\n                  <img src=\x22"
    ++ (htmlEscape img3)
    ++ "\x22 alt=\x22\x7b\x7b hero_two_col_body_3_h2 | strip \x7d\x7d\x22 width=\x22260\x22 height=\x22180\x22 style=\x22display:block;max-width:100%;height:auto;\x22 />\n                </td></tr>\n              </table>\n            </td>\n          </tr>\n          <tr class=\x22email-feature-row\x22>\n            <td width=\x2250%\x22 valign=\x22middle\x22 class=\x22email-feature-col\x22 style=\x22padding:0 20px 0 0;vertical-align:middle;\x22>\n              <table role=\x22presentation\x22 width=\x22100%\x22 cellpadding=\x220\x22 cellspacing=\x220\x22 border=\x220\x22>\n                <tr><td align=\x22center\x22>\n                  <img src=\x22"
    ++ (htmlEscape img4)
    ++ "\x22 alt=\x22\x7b\x7b hero_two_col_body_4_h2 | strip \x7d\x7d\x22 width=\x22260\x22 height=\x22180\x22 style=\x22display:block;max-width:100%;height:auto;\x22 />\n                </td></tr>\n              </table>\n            </td>\n            <td width=\x2250%\x22 valign=\x22middle\x22 class=\x22email-feature-col\x22 style=\x22padding:0 0 0 20px;vertical-align:middle;\x22>\n              <table role=\x22presentation\x22 width=\x22100%\x22 cellpadding=\x220\x22 cellspacing=\x220\x22 border=\x220\x22>\n                <tr><td>\n                  <h2 style=\x22"
    ++ (textStyle)
    ++ "\x22>\x7b\x7b hero_two_col_body_4_h2 | strip \x7d\x7d</h2>\n                  <p style=\x22"
    ++ (bodyStyle)
    ++ "\x22>\x7b\x7b hero_two_col_body_4_copy | strip \x7d\x7d</p>\n                </td></tr>\n              </table>\n            </td>\n          </tr>\n        </table>\n        <table role=\x22presentation\x22 width=\x22600\x22 cellpadding=\x220\x22 cellspacing=\x220\x22 border=\x220\x22 class=\x22email-hero-two-col-cta-wrap\x22 style=\x22width:600px;max-width:100%;margin-top:\x7b\x7b token_space_900 \x7d\x7d;\x22>\n          <tr>\n            <td class=\x22email-hero-two-col-cta-cell\x22 style=\x22padding:\x7b\x7b token_space_600 \x7d\x7d 0 0 0;width:600px;\x22>\n              <a href=\x22"
    ++ (ctaHref)
    ++ "\x22 target=\x22_blank\x22 data-cio-tag=\x22"
    ++ (ctaTag)
    ++ "\x22 class=\x22email-hero-two-col-cta\x22 style=\x22display:block;width:600px;max-width:100%;min-height:52px;box-sizing:border-box;background:\x7b\x7b token_cta_bg \x7d\x7d;color:\x7b\x7b token_text_on_brand \x7d\x7d;text-align:center;font-weight:600;font-size:16px;line-height:20px;padding:\x7b\x7b token_space_400 \x7d\x7d 0;border-radius:8px;border-top:1.5px solid #000000;font-family:\x7b\x7b token_font_stack \x7d\x7d;text-decoration:none;\x22>\x7b\x7b hero_two_col_cta_text | strip \x7d\x7d</a>\n            </td>\n          </tr>\n        </table>\n      </td>\n    </tr>\n  </tbody>\n</table>\n</td></tr>\n\x7b%- endif -%\x7d"

/-- One feature row of the USP module (`_usp_row`, lines 737-746). -/
def uspRowHtml (iconUrl headingVar copyVar : String) : String :=
  "            <tr>\n              <td valign=\x22top\x22 style=\x22padding:0 \x7b\x7b token_space_600 \x7d\x7d \x7b\x7b token_space_600 \x7d\x7d 0;vertical-align:top;width:80px;\x22>\n                <img src=\x22"
    ++ (htmlEscape iconUrl)
    ++ "\x22 alt=\x22\x22 width=\x2280\x22 height=\x2280\x22 style=\x22display:block;max-width:80px;max-height:80px;object-fit:contain;\x22 />\n              </td>\n              <td valign=\x22top\x22 style=\x22padding:0 0 \x7b\x7b token_space_600 \x7d\x7d 0;vertical-align:top;\x22>\n                <p style=\x22margin:0;font-family:\x7b\x7b token_font_stack \x7d\x7d;font-weight:700;font-size:\x7b\x7b token_font_size_md \x7d\x7d;line-height:\x7b\x7b token_line_height_lg \x7d\x7d;letter-spacing:\x7b\x7b token_letter_spacing_md \x7d\x7d;color:\x7b\x7b token_text_primary \x7d\x7d;text-align:\x7b\x7b align \x7d\x7d;direction:\x7b\x7b dir \x7d\x7d;unicode-bidi:plaintext;\x22>\x7b\x7b "
    ++ (headingVar)
    ++ " | strip \x7d\x7d</p>\n                <p style=\x22margin:4px 0 0 0;font-family:\x7b\x7b token_font_stack \x7d\x7d;font-weight:400;font-size:\x7b\x7b token_font_size_md \x7d\x7d;line-height:\x7b\x7b token_line_height_lg \x7d\x7d;letter-spacing:\x7b\x7b token_letter_spacing_md \x7d\x7d;color:\x7b\x7b token_text_body \x7d\x7d;text-align:\x7b\x7b align \x7d\x7d;direction:\x7b\x7b dir \x7d\x7d;unicode-bidi:plaintext;\x22>\x7b\x7b "
    ++ (copyVar)
    ++ " | strip \x7d\x7d</p>\n              </td>\n            </tr>"

/-- Body of the USP module (lines 748-771). -/
def uspBody (row1 row2 row3 : String) : String :=
  "\x7b%- if usp_title != blank -%\x7d\n<tr><td style=\x22padding:0;vertical-align:top;\x22>\n<table role=\x22presentation\x22 width=\x22600\x22 cellpadding=\x220\x22 cellspacing=\x220\x22 border=\x220\x22 class=\x22email-usp-module\x22 style=\x22width:600px;max-width:100%;margin-top:\x7b\x7b token_space_600 \x7d\x7d;background-color:\x7b\x7b token_neutral_c050 \x7d\x7d;padding:\x7b\x7b token_space_800 \x7d\x7d;border-radius:\x7b\x7b token_radius_module \x7d\x7d;box-sizing:border-box;\x22>\n  <tbody>\n    <tr>\n      <td align=\x22center\x22 style=\x22padding:0 0 \x7b\x7b token_space_600 \x7d\x7d 0;\x22>\n        <p style=\x22margin:0;font-family:\x7b\x7b token_font_stack \x7d\x7d;font-weight:700;font-size:24px;line-height:32px;letter-spacing:\x7b\x7b token_letter_spacing_md \x7d\x7d;color:\x7b\x7b token_accent \x7d\x7d;text-align:center;direction:\x7b\x7b dir \x7d\x7d;unicode-bidi:plaintext;\x22>\x7b\x7b usp_title | strip \x7d\x7d</p>\n      </td>\n    </tr>\n    <tr>\n      <td style=\x22padding:0;\x22>\n        <table role=\x22presentation\x22 width=\x22100%\x22 cellpadding=\x220\x22 cellspacing=\x220\x22 border=\x220\x22 style=\x22width:100%;border-collapse:collapse;\x22>\n          <tbody>\n"
    ++ (row1)
    ++ "\n"
    ++ (row2)
    ++ "\n"
    ++ (row3)
    ++ "\n          </tbody>\n        </table>\n      </td>\n    </tr>\n  </tbody>\n</table>\n</td></tr>\n\x7b%- endif -%\x7d"

/-- One row of the USP feature module (`_feature_row`, lines 786-795). -/
def uspFeatureRowHtml (imgUrl headingVar copyVar : String) : String :=
  "          <tr class=\x22email-usp-feature-row\x22>\n            <td width=\x2250%\x22 valign=\x22middle\x22 style=\x22padding:0 20px 32px 0;vertical-align:middle;\x22>\n              <p style=\x22margin:0;font-family:\x7b\x7b token_font_stack \x7d\x7d;font-weight:700;font-size:\x7b\x7b token_font_size_md \x7d\x7d;line-height:\x7b\x7b token_line_height_lg \x7d\x7d;letter-spacing:\x7b\x7b token_letter_spacing_md \x7d\x7d;color:\x7b\x7b token_text_primary \x7d\x7d;text-align:\x7b\x7b align \x7d\x7d;direction:\x7b\x7b dir \x7d\x7d;unicode-bidi:plaintext;\x22>\x7b\x7b "
    ++ (headingVar)
    ++ " | strip \x7d\x7d</p>\n              <p style=\x22margin:8px 0 0 0;font-family:\x7b\x7b token_font_stack \x7d\x7d;font-weight:400;font-size:\x7b\x7b token_font_size_md \x7d\x7d;line-height:\x7b\x7b token_line_height_lg \x7d\x7d;letter-spacing:\x7b\x7b token_letter_spacing_md \x7d\x7d;color:\x7b\x7b token_text_body \x7d\x7d;text-align:\x7b\x7b align \x7d\x7d;direction:\x7b\x7b dir \x7d\x7d;unicode-bidi:plaintext;\x22>\x7b\x7b "
    ++ (copyVar)
    ++ " | strip \x7d\x7d</p>\n            </td>\n            <td width=\x2250%\x22 valign=\x22middle\x22 style=\x22padding:0 0 32px 20px;vertical-align:middle;\x22>\n              <img src=\x22"
    ++ (htmlEscape imgUrl)
    ++ "\x22 alt=\x22\x22 width=\x22280\x22 height=\x22200\x22 style=\x22display:block;max-width:100%;height:auto;border-radius:\x7b\x7b token_radius_module \x7d\x7d;\x22 />\n            </td>\n          </tr>"

/-- Body of the USP feature module (lines 797-812). -/
def uspFeatureBody (row1 row2 row3 : String) : String :=
  "\x7b%- if usp_feature_title != blank -%\x7d\n<tr><td style=\x22padding:0;vertical-align:top;\x22>\n<table role=\x22presentation\x22 width=\x22600\x22 cellpadding=\x220\x22 cellspacing=\x220\x22 border=\x220\x22 class=\x22email-usp-feature-module\x22 style=\x22width:600px;max-width:100%;margin-top:\x7b\x7b token_space_600 \x7d\x7d;background-color:\x7b\x7b token_neutral_c050 \x7d\x7d;padding:\x7b\x7b token_space_800 \x7d\x7d;border-radius:\x7b\x7b token_radius_module \x7d\x7d;box-sizing:border-box;\x22>\n  <tbody>\n    <tr>\n      <td align=\x22center\x22 colspan=\x222\x22 style=\x22padding:0 0 \x7b\x7b token_space_600 \x7d\x7d 0;\x22>\n        <p style=\x22margin:0;font-family:\x7b\x7b token_font_stack \x7d\x7d;font-weight:700;font-size:24px;line-height:32px;letter-spacing:\x7b\x7b token_letter_spacing_md \x7d\x7d;color:\x7b\x7b token_accent \x7d\x7d;text-align:center;direction:\x7b\x7b dir \x7d\x7d;unicode-bidi:plaintext;\x22>\x7b\x7b usp_feature_title | strip \x7d\x7d</p>\n      </td>\n    </tr>\n"
    ++ (row1)
    ++ "\n"
    ++ (row2)
    ++ "\n"
    ++ (row3)
    ++ "\n  </tbody>\n</table>\n</td></tr>\n\x7b%- endif -%\x7d"

/-- The image cell of one alternating-module row (line 829). -/
def uspUiImgCell (imgUrl : String) : String :=
  "<td width=\x2250%\x22 valign=\x22middle\x22 style=\x22padding:0 0 32px 20px;vertical-align:middle;\x22><img src=\x22"
    ++ (htmlEscape imgUrl)
    ++ "\x22 alt=\x22\x22 width=\x22280\x22 height=\x22200\x22 style=\x22display:block;max-width:100%;height:auto;\x22 /></td>"

/-- The text cell of one alternating-module row (lines 830-833). -/
def uspUiTextCell (headingVar copyVar : String) : String :=
  "<td width=\x2250%\x22 valign=\x22middle\x22 style=\x22padding:0 20px 32px 0;vertical-align:middle;\x22>\n              <p style=\x22margin:0;font-family:\x7b\x7b token_font_stack \x7d\x7d;font-weight:700;font-size:\x7b\x7b token_font_size_md \x7d\x7d;line-height:\x7b\x7b token_line_height_lg \x7d\x7d;letter-spacing:\x7b\x7b token_letter_spacing_md \x7d\x7d;color:\x7b\x7b token_text_primary \x7d\x7d;text-align:\x7b\x7b align \x7d\x7d;direction:\x7b\x7b dir \x7d\x7d;unicode-bidi:plaintext;\x22>\x7b\x7b "
    ++ (headingVar)
    ++ " | strip \x7d\x7d</p>\n              <p style=\x22margin:8px 0 0 0;font-family:\x7b\x7b token_font_stack \x7d\x7d;font-weight:400;font-size:\x7b\x7b token_font_size_md \x7d\x7d;line-height:\x7b\x7b token_line_height_lg \x7d\x7d;letter-spacing:\x7b\x7b token_letter_spacing_md \x7d\x7d;color:\x7b\x7b token_text_body \x7d\x7d;text-align:\x7b\x7b align \x7d\x7d;direction:\x7b\x7b dir \x7d\x7d;unicode-bidi:plaintext;\x22>\x7b\x7b "
    ++ (copyVar)
    ++ " | strip \x7d\x7d</p>\n            </td>"

/-- An alternating-module row with the image on the left (lines 835-840). -/
def uspUiRowImageFirst (imgUrl textCell : String) : String :=
  "          <tr class=\x22email-usp-ui-row\x22>\n            <td width=\x2250%\x22 valign=\x22middle\x22 style=\x22padding:0 20px 32px 0;vertical-align:middle;\x22>\n              <img src=\x22"
    ++ (htmlEscape imgUrl)
    ++ "\x22 alt=\x22\x22 width=\x22280\x22 height=\x22200\x22 style=\x22display:block;max-width:100%;height:auto;\x22 />\n            </td>\n            "
    ++ (textCell)
    ++ "\n          </tr>"

/-- An alternating-module row with the text on the left (lines 841-846). -/
def uspUiRowTextFirst (imgUrl textCell : String) : String :=
  "          <tr class=\x22email-usp-ui-row\x22>\n            "
    ++ (textCell)
    ++ "\n            <td width=\x2250%\x22 valign=\x22middle\x22 style=\x22padding:0 0 32px 20px;vertical-align:middle;\x22>\n              <img src=\x22"
    ++ (htmlEscape imgUrl)
    ++ "\x22 alt=\x22\x22 width=\x22280\x22 height=\x22200\x22 style=\x22display:block;max-width:100%;height:auto;\x22 />\n            </td>\n          </tr>"

/-- Body of the alternating text/image module (lines 848-863). -/
def uspUiBody (row1 row2 row3 : String) : String :=
  "\x7b%- if usp_ui_title != blank -%\x7d\n<tr><td style=\x22padding:0;vertical-align:top;\x22>\n<table role=\x22presentation\x22 width=\x22600\x22 cellpadding=\x220\x22 cellspacing=\x220\x22 border=\x220\x22 class=\x22email-alternating-text-image-module\x22 style=\x22width:600px;max-width:100%;margin-top:\x7b\x7b token_space_600 \x7d\x7d;box-sizing:border-box;\x22>\n  <tbody>\n    <tr>\n      <td align=\x22center\x22 colspan=\x222\x22 style=\x22padding:0 0 \x7b\x7b token_space_600 \x7d\x7d 0;\x22>\n        <p style=\x22margin:0;font-family:\x7b\x7b token_font_stack \x7d\x7d;font-weight:700;font-size:24px;line-height:32px;letter-spacing:\x7b\x7b token_letter_spacing_md \x7d\x7d;color:\x7b\x7b token_accent \x7d\x7d;text-align:center;direction:\x7b\x7b dir \x7d\x7d;unicode-bidi:plaintext;\x22>\x7b\x7b usp_ui_title | strip \x7d\x7d</p>\n      </td>\n    </tr>\n"
    ++ (row1)
    ++ "\n"
    ++ (row2)
    ++ "\n"
    ++ (row3)
    ++ "\n  </tbody>\n</table>\n</td></tr>\n\x7b%- endif -%\x7d"

/-- `build_app_download_module`: rendered only when `app_download_title`
is present in the translation table. -/
def build_app_download_module (t : Dict (Dict String)) (s : Dict String) : String :=
  if !(dmem "app_download_title" t) then ""
  else
    let appRating := pystrip (let v := dgetD s "app_store_rating" ""; if v = "" then "4.9/5 · 8,000+ reviews" else v)
    let googleRating := pystrip (let v := dgetD s "google_play_rating" ""; if v = "" then "4.6/5 · 11,000+ reviews" else v)
    appDownloadBody (String.join (List.replicate 5 (starImg starUrl))) appRating googleRating

/-- The `text_style` constant of the two-column hero module (line 629). -/
def heroTwoColTextStyle : String :=
  "margin:0 0 12px 0;font-family:\x7b\x7b token_font_stack \x7d\x7d;font-weight:700;font-size:16px;line-height:24px;letter-spacing:0.01em;color:\x7b\x7b token_text_primary \x7d\x7d;text-align:\x7b\x7b align \x7d\x7d;direction:\x7b\x7b dir \x7d\x7d;unicode-bidi:plaintext;"

/-- The `body_style` constant of the two-column hero module (line 630). -/
def heroTwoColBodyStyle : String :=
  "margin:0;font-family:\x7b\x7b token_font_stack \x7d\x7d;font-weight:400;font-size:16px;line-height:24px;letter-spacing:0.01em;color:\x7b\x7b token_text_primary \x7d\x7d;text-align:\x7b\x7b align \x7d\x7d;direction:\x7b\x7b dir \x7d\x7d;unicode-bidi:plaintext;"

/-- `build_hero_two_column_module`: rendered only when
`hero_two_col_body_1_h2` is present in the translation table. -/
def build_hero_two_column_module (t : Dict (Dict String)) (s : Dict String) : String :=
  if !(dmem "hero_two_col_body_1_h2" t) then ""
  else
    let img1 := normaliseUrl (dgetD s "hero_two_col_image_1_url" "")
    let img2 := normaliseUrl (dgetD s "hero_two_col_image_2_url" "")
    let img3 := normaliseUrl (dgetD s "hero_two_col_image_3_url" "")
    let img4 := normaliseUrl (dgetD s "hero_two_col_image_4_url" "")
    let ctaLink := normaliseUrl (dgetD s "cta_link" "")
    let ctaAlias := pystrip (let v := dgetD s "cta_alias" ""; if v = "" then "hero-two-col-cta" else v)
    let ctaHref := if !(ctaLink == "") then htmlEscape ctaLink else "#"
    heroTwoColumnBody heroTwoColTextStyle heroTwoColBodyStyle img1 img2 img3 img4 ctaHref (htmlEscape ctaAlias)

/-- The placeholder icon of the USP module (line 732). -/
def uspPlaceholderIcon : String := "https://placehold.co/80/f2e5ff/7130c9?text=•"

/-- `build_usp_module` (the icon-left-text-right module): rendered only when
`usp_title` is present in the translation table. -/
def build_usp_module (t : Dict (Dict String)) (s : Dict String) : String :=
  if !(dmem "usp_title" t) then ""
  else
    let icon1 := let v := normaliseUrl (dgetD s "usp_1_icon_url" ""); if v = "" then uspPlaceholderIcon else v
    let icon2 := let v := normaliseUrl (dgetD s "usp_2_icon_url" ""); if v = "" then uspPlaceholderIcon else v
    let icon3 := let v := normaliseUrl (dgetD s "usp_3_icon_url" ""); if v = "" then uspPlaceholderIcon else v
    uspBody (uspRowHtml icon1 "usp_1_heading" "usp_1_copy")
      (uspRowHtml icon2 "usp_2_heading" "usp_2_copy")
      (uspRowHtml icon3 "usp_3_heading" "usp_3_copy")

/-- The placeholder image of the USP feature module (line 781). -/
def uspFeaturePlaceholder : String := "https://placehold.co/280x200/fcf7f5/615a56?text=Feature"

/-- `build_usp_feature_module` (the text-left-image-right module): rendered
only when `usp_feature_title` is present in the translation table. -/
def build_usp_feature_module (t : Dict (Dict String)) (s : Dict String) : String :=
  if !(dmem "usp_feature_title" t) then ""
  else
    let img1 := let v := normaliseUrl (dgetD s "usp_feature_1_image_url" ""); if v = "" then uspFeaturePlaceholder else v
    let img2 := let v := normaliseUrl (dgetD s "usp_feature_2_image_url" ""); if v = "" then uspFeaturePlaceholder else v
    let img3 := let v := normaliseUrl (dgetD s "usp_feature_3_image_url" ""); if v = "" then uspFeaturePlaceholder else v
    uspFeatureBody (uspFeatureRowHtml img1 "usp_feature_1_heading" "usp_feature_1_copy")
      (uspFeatureRowHtml img2 "usp_feature_2_heading" "usp_feature_2_copy")
      (uspFeatureRowHtml img3 "usp_feature_3_heading" "usp_feature_3_copy")

/-- The placeholder image of the alternating text/image module (line 823). -/
def uspUiPlaceholder : String := "https://placehold.co/280x200/fcf7f5/615a56?text=Image"

/-- `build_usp_ui_module` (the alternating text/image module): rendered only
when `usp_ui_title` is present in the translation table.  (The `img_cell`
string of `_ui_row`, `uspUiImgCell`, is computed but unused in the source;
both branches inline their own image cell.) -/
def build_usp_ui_module (t : Dict (Dict String)) (s : Dict String) : String :=
  if !(dmem "usp_ui_title" t) then ""
  else
    let img1 := let v := normaliseUrl (dgetD s "usp_ui_1_image_url" ""); if v = "" then uspUiPlaceholder else v
    let img2 := let v := normaliseUrl (dgetD s "usp_ui_2_image_url" ""); if v = "" then uspUiPlaceholder else v
    let img3 := let v := normaliseUrl (dgetD s "usp_ui_3_image_url" ""); if v = "" then uspUiPlaceholder else v
    uspUiBody (uspUiRowTextFirst img1 (uspUiTextCell "usp_ui_1_heading" "usp_ui_1_copy"))
      (uspUiRowImageFirst img2 (uspUiTextCell "usp_ui_2_heading" "usp_ui_2_copy"))
      (uspUiRowTextFirst img3 (uspUiTextCell "usp_ui_3_heading" "usp_ui_3_copy"))
/-- `MODULE_TEMPLATE_ROWS`: the blank-input-template rows per module (`csv_key`, `en` placeholder). -/
def MODULE_TEMPLATE_ROWS : Dict (List (String × String)) := [
  ("hero_module", [
    ("subject_line", ""),
    ("preheader", ""),
    ("headline", ""),
    ("body_1", ""),
    ("body_2", ""),
    ("cta_text", ""),
    ("image_url", ""),
    ("image_url_mobile", ""),
    ("image_deeplink", ""),
    ("cta_link", ""),
    ("cta_alias", "hero-cta")
  ]),
  ("hero_module_two_column", [
    ("subject_line", ""),
    ("preheader", ""),
    ("headline", ""),
    ("subheadline", ""),
    ("body_1_h2", ""),
    ("body_1_copy", ""),
    ("image_1_URL", ""),
    ("body_2_h2", ""),
    ("body_2_copy", ""),
    ("image_2_URL", ""),
    ("body_3_h2", ""),
    ("body_3_copy", ""),
    ("image_3_URL", ""),
    ("body_4_h2", ""),
    ("body_4_copy", ""),
    ("image_4_URL", ""),
    ("cta_text", ""),
    ("hero_image_url", ""),
    ("image_deeplink", ""),
    ("cta_link", ""),
    ("cta_alias", "hero-cta")
  ]),
  ("app_download_module", [
    ("headline", ""),
    ("feature_1", ""),
    ("feature_2", ""),
    ("feature_3", ""),
    ("colour", "#fcf7f5")
  ]),
  ("disclaimer_module", [
    ("terms_title", ""),
    ("terms_desc", ""),
    ("terms_label", ""),
    ("privacy_label", "")
  ]),
  ("icon_left_text_right_module", [
    ("title", "How Vio helps you book like an insider"),
    ("usp_1_heading", "Compare prices across 100+ sites"),
    ("usp_1_copy", "See the full picture upfront. No guessing, no bouncing between tabs."),
    ("usp_1_icon_url", ""),
    ("usp_2_heading", "Know exactly when to book"),
    ("usp_2_copy", "Price insights show you the right moment to secure your deal."),
    ("usp_2_icon_url", ""),
    ("usp_3_heading", "Stay ahead of price changes"),
    ("usp_3_copy", "We track prices so you don\x27t have to keep checking."),
    ("usp_3_icon_url", "")
  ]),
  ("text_left_image_right_module", [
    ("title", "How Vio helps you book like an insider"),
    ("usp_feature_1_heading", "Compare prices across 100+ sites"),
    ("usp_feature_1_copy", "See the full picture upfront. No guessing, no bouncing between tabs."),
    ("usp_feature_1_image_url", ""),
    ("usp_feature_2_heading", "Know exactly when to book"),
    ("usp_feature_2_copy", "Price insights show you the right moment to secure your deal."),
    ("usp_feature_2_image_url", ""),
    ("usp_feature_3_heading", "Stay ahead of price changes"),
    ("usp_feature_3_copy", "We track prices so you don\x27t have to keep checking."),
    ("usp_feature_3_image_url", "")
  ]),
  ("alternating_text_image_module", [
    ("title", "How Vio helps you book like an insider"),
    ("usp_ui_1_heading", "Compare prices across 100+ sites"),
    ("usp_ui_1_copy", "See the full picture upfront. No guessing, no bouncing between tabs."),
    ("usp_ui_1_image_url", ""),
    ("usp_ui_2_heading", "Know exactly when to book"),
    ("usp_ui_2_copy", "Price insights show you the right moment to secure your deal."),
    ("usp_ui_2_image_url", ""),
    ("usp_ui_3_heading", "Stay ahead of price changes"),
    ("usp_ui_3_copy", "We track prices so you don\x27t have to keep checking."),
    ("usp_ui_3_image_url", "")
  ])]

/-- The placeholder value each internal content key receives from the input-template rows (first occurrence; the agreement of every template row with this table is proved below by evaluation). -/
def canonPlaceholders : Dict String := [
  ("subject_line", ""),
  ("preheader", ""),
  ("headline", ""),
  ("body_1", ""),
  ("body_2", ""),
  ("cta_text", ""),
  ("image_url", ""),
  ("image_url_mobile", ""),
  ("image_deeplink", ""),
  ("cta_link", ""),
  ("cta_alias", "hero-cta"),
  ("secondary_headline", ""),
  ("hero_two_col_body_1_h2", ""),
  ("hero_two_col_body_1_copy", ""),
  ("hero_two_col_image_1_url", ""),
  ("hero_two_col_body_2_h2", ""),
  ("hero_two_col_body_2_copy", ""),
  ("hero_two_col_image_2_url", ""),
  ("hero_two_col_body_3_h2", ""),
  ("hero_two_col_body_3_copy", ""),
  ("hero_two_col_image_3_url", ""),
  ("hero_two_col_body_4_h2", ""),
  ("hero_two_col_body_4_copy", ""),
  ("hero_two_col_image_4_url", ""),
  ("hero_two_col_cta_text", ""),
  ("app_download_title", ""),
  ("app_download_feature_1", ""),
  ("app_download_feature_2", ""),
  ("app_download_feature_3", ""),
  ("app_download_colour", "#fcf7f5"),
  ("terms_title", ""),
  ("terms_desc_text", ""),
  ("terms_label", ""),
  ("privacy_label", ""),
  ("usp_title", "How Vio helps you book like an insider"),
  ("usp_1_heading", "Compare prices across 100+ sites"),
  ("usp_1_copy", "See the full picture upfront. No guessing, no bouncing between tabs."),
  ("usp_1_icon_url", ""),
  ("usp_2_heading", "Know exactly when to book"),
  ("usp_2_copy", "Price insights show you the right moment to secure your deal."),
  ("usp_2_icon_url", ""),
  ("usp_3_heading", "Stay ahead of price changes"),
  ("usp_3_copy", "We track prices so you don\x27t have to keep checking."),
  ("usp_3_icon_url", ""),
  ("usp_feature_title", "How Vio helps you book like an insider"),
  ("usp_feature_1_heading", "Compare prices across 100+ sites"),
  ("usp_feature_1_copy", "See the full picture upfront. No guessing, no bouncing between tabs."),
  ("usp_feature_1_image_url", ""),
  ("usp_feature_2_heading", "Know exactly when to book"),
  ("usp_feature_2_copy", "Price insights show you the right moment to secure your deal."),
  ("usp_feature_2_image_url", ""),
  ("usp_feature_3_heading", "Stay ahead of price changes"),
  ("usp_feature_3_copy", "We track prices so you don\x27t have to keep checking."),
  ("usp_feature_3_image_url", ""),
  ("usp_ui_title", "How Vio helps you book like an insider"),
  ("usp_ui_1_heading", "Compare prices across 100+ sites"),
  ("usp_ui_1_copy", "See the full picture upfront. No guessing, no bouncing between tabs."),
  ("usp_ui_1_image_url", ""),
  ("usp_ui_2_heading", "Know exactly when to book"),
  ("usp_ui_2_copy", "Price insights show you the right moment to secure your deal."),
  ("usp_ui_2_image_url", ""),
  ("usp_ui_3_heading", "Stay ahead of price changes"),
  ("usp_ui_3_copy", "We track prices so you don\x27t have to keep checking."),
  ("usp_ui_3_image_url", "")]

/-- One generated row of the standard input template:
`(csv_key, module, module_index, en placeholder)`. -/
structure TemplateEntry where
  csvKey : String
  moduleName : String
  moduleIdx : Nat
  placeholder : String
deriving DecidableEq

/-- The rows emitted by `generate_standard_input_template` (lines 1131-1138):
unknown modules are skipped; a module keeps its first index when repeated. -/
def genEntriesAux (indices : Dict Nat) : List String → List TemplateEntry
  | [] => []
  | m :: rest =>
    match dget? MODULE_TEMPLATE_ROWS m with
    | none => genEntriesAux indices rest
    | some trows =>
      let idx := dgetD indices m (indices.length + 1)
      trows.map (fun kp => ⟨kp.1, m, idx, kp.2⟩) ++ genEntriesAux (dput indices m idx) rest

/-- The template entries for a module selection. -/
def genEntries (modules : List String) : List TemplateEntry :=
  genEntriesAux [] modules

/-- The header of the standard input template. -/
def stdHeader (locales : List String) : List String :=
  ["Key", "Module", "module_index"] ++ locales

/-- One CSV row of the standard input template: the placeholder goes into the
first locale column, the remaining locale cells are blank (line 1137). -/
def entryRow (locales : List String) (e : TemplateEntry) : List String :=
  [e.csvKey, e.moduleName, toString e.moduleIdx]
    ++ (List.range locales.length).map (fun i => if i = 0 then e.placeholder else "")

/-- `generate_standard_input_template` (lines 1116-1147), as the parsed CSV it
writes: header plus one row per module field.  A falsy locale list defaults to
`["en"]`; the side `links` dictionary (read from `standard_links.json`) is not
modelled. -/
def generate_standard_input_template (modules : List String) (includeLocales : Option (List String)) : ParsedCSV :=
  let locales :=
    match includeLocales with
    | some ls => if ls.isEmpty then ["en"] else ls
    | none => ["en"]
  ⟨stdHeader locales, (genEntries modules).map (entryRow locales)⟩

/-- The failures `generate_template` can signal: a missing input file
(`FileNotFoundError`, line 1539) or a spreadsheet with no usable rows
(`sys.exit`, line 1543). -/
inductive GenError
  | fileNotFound
  | noRows
deriving DecidableEq

/-- The fragments `generate_template` computes and splices into the constant
skeleton. -/
structure GenOutput where
  contentCaptures : String
  rowsAboveImage : String
  imageRow : String
  rowsBelowImage : String
  heroTwoColumnModule : String
  iconLeftTextRightModule : String
  textLeftImageRightModule : String
  alternatingTextImageModule : String
  appDownloadModule : String
deriving DecidableEq

/-- `generate_template` (lines 1524-1578).  A missing file (`none`) raises
`FileNotFoundError`; a spreadsheet yielding two empty tables aborts via
`sys.exit`.  The config/design-token/links/terms blocks read sibling files and
the final result is the constant `BASE_TEMPLATE` with each placeholder token
literally replaced by the corresponding fragment; the output is modelled as
the tuple of generated fragments. -/
def generate_template (file : Option ParsedCSV) (includeLocales : Option (List String)) :
    Except GenError GenOutput :=
  match file with
  | none => Except.error GenError.fileNotFound
  | some csv =>
    let locales :=
      match includeLocales with
      | some ls => if ls.isEmpty then get_csv_locales csv.fields else ls
      | none => get_csv_locales csv.fields
    let ts := load_translations csv (some locales)
    if ts.1.isEmpty && ts.2.isEmpty then Except.error GenError.noRows
    else Except.ok
      { contentCaptures := build_content_captures ts.1 (some locales)
        rowsAboveImage := build_rows_above_image ts.1
        imageRow := build_image_row ts.2
        rowsBelowImage := build_rows_below_image ts.1 ts.2
        heroTwoColumnModule := build_hero_two_column_module ts.1 ts.2
        iconLeftTextRightModule := build_usp_module ts.1 ts.2
        textLeftImageRightModule := build_usp_feature_module ts.1 ts.2
        alternatingTextImageModule := build_usp_ui_module ts.1 ts.2
        appDownloadModule := build_app_download_module ts.1 ts.2 }

/-- Modelled from the spec: "For all structural ContentKeys, the resolved
value equals the first non-blank cell scanning locales in fixed table order,
or `en` if all scanned values were blank."  Scans the requested locales in
`LOCALE_COLUMNS` order, for comparison with the code's `structPut`. -/
def specStructResolveTableOrder (locales : List String) (vrow : Dict String) : String :=
  match (LOCALE_COLUMNS.filter (fun loc => locales.contains loc)).findSome? (fun loc =>
      let v := pystrip (dgetD vrow loc "")
      if v = "" then none else some v) with
  | some v => v
  | none => pystrip (dgetD vrow "en" "")

/-- The first non-blank locale value of a row, scanning the requested locales
in the requested order — the scan `load_translations` actually performs
(lines 408-412). -/
def codeStructResolve (locales : List String) (vrow : Dict String) : Option String :=
  locales.findSome? (fun loc =>
    let v := pystrip (dgetD vrow loc "")
    if v = "" then none else some v)

/-! ### Basic lemmas about the string and dictionary models -/

theorem length_dropWhile_le (p : Char → Bool) (l : List Char) :
    (l.dropWhile p).length ≤ l.length := by
  induction l with
  | nil => simp
  | cons a t ih =>
    by_cases h : p a
    · simp only [List.dropWhile_cons, h, if_true]
      exact Nat.le_trans ih (Nat.le_succ _)
    · simp [List.dropWhile_cons, h]

theorem dropWhile_dropWhile_self (p : Char → Bool) (l : List Char) :
    (l.dropWhile p).dropWhile p = l.dropWhile p := by
  induction l with
  | nil => rfl
  | cons a t ih =>
    by_cases h : p a
    · simp only [List.dropWhile_cons, h, if_true]; exact ih
    · simp [List.dropWhile_cons, h]

theorem dropWhile_head_false (p : Char → Bool) (c : Char) (cs : List Char)
    (h : (c :: cs).dropWhile p = c :: cs) : p c = false := by
  by_cases hc : p c
  · exfalso
    have h1 : (c :: cs).dropWhile p = cs.dropWhile p := by simp [List.dropWhile_cons, hc]
    have h2 : (cs.dropWhile p).length ≤ cs.length := length_dropWhile_le p cs
    rw [h] at h1
    have := congrArg List.length h1
    simp at this
    omega
  · exact eq_false_of_ne_true hc

theorem stripEndL_shape (c : Char) (cs : List Char) :
    stripEndL (c :: cs) = [] ∨ ∃ r, stripEndL (c :: cs) = c :: r := by
  unfold stripEndL
  cases h : stripEndL cs with
  | nil =>
    by_cases hc : isPyWhitespace c
    · left; simp [hc]
    · right; exact ⟨[], by simp [hc]⟩
  | cons d r => right; exact ⟨d :: r, rfl⟩

theorem stripEndL_cons (c : Char) (cs : List Char) :
    stripEndL (c :: cs) =
      match stripEndL cs with
      | [] => if isPyWhitespace c then [] else [c]
      | r => c :: r := rfl

theorem stripEndL_idem (l : List Char) : stripEndL (stripEndL l) = stripEndL l := by
  induction l with
  | nil => rfl
  | cons c cs ih =>
    cases h : stripEndL cs with
    | nil =>
      by_cases hc : isPyWhitespace c
      · rw [stripEndL_cons, h]; simp [hc, stripEndL]
      · rw [stripEndL_cons, h]; simp [hc, stripEndL]
    | cons d r =>
      rw [h] at ih
      rw [stripEndL_cons, h]
      show stripEndL (c :: d :: r) = c :: d :: r
      rw [stripEndL_cons, ih]

theorem dropWhile_stripEndL_stable (p : Char → Bool) (l : List Char)
    (h : l.dropWhile p = l) : (stripEndL l).dropWhile p = stripEndL l := by
  cases l with
  | nil => rfl
  | cons c cs =>
    have hc : p c = false := dropWhile_head_false p c cs h
    rcases stripEndL_shape c cs with h0 | ⟨r, hr⟩
    · rw [h0]; rfl
    · rw [hr]; simp [List.dropWhile_cons, hc]

theorem pystrip_idem (s : String) : pystrip (pystrip s) = pystrip s := by
  show (⟨stripL (⟨stripL s.data⟩ : String).data⟩ : String) = ⟨stripL s.data⟩
  have hdata : (⟨stripL s.data⟩ : String).data = stripL s.data := rfl
  rw [hdata]
  unfold stripL
  have h1 : (stripEndL (s.data.dropWhile isPyWhitespace)).dropWhile isPyWhitespace
      = stripEndL (s.data.dropWhile isPyWhitespace) :=
    dropWhile_stripEndL_stable _ _ (dropWhile_dropWhile_self _ _)
  rw [h1, stripEndL_idem]

theorem pystrip_empty : pystrip "" = "" := rfl

theorem dget?_dput_self {α : Type} (d : Dict α) (k : String) (v : α) :
    dget? (dput d k v) k = some v := by
  induction d with
  | nil => simp [dput, dget?]
  | cons p t ih =>
    by_cases h : p.1 == k
    · simp [dput, dget?, h]
    · simp [dput, dget?, h, ih]

theorem dget?_dput_ne {α : Type} (d : Dict α) (k k' : String) (v : α) (h : ¬ k' = k) :
    dget? (dput d k v) k' = dget? d k' := by
  induction d with
  | nil => simp [dput, dget?, Ne.symm h]
  | cons p t ih =>
    by_cases hp : p.1 == k
    · have hpk : p.1 = k := by simpa using hp
      simp [dput, dget?, hp, hpk, Ne.symm h]
    · simp [dput, dget?, hp, ih]

theorem dmem_dput_mono {α : Type} (d : Dict α) (k k' : String) (v : α)
    (h : dmem k' d = true) : dmem k' (dput d k v) = true := by
  by_cases hk : k' = k
  · subst hk; simp [dmem, dget?_dput_self]
  · simpa [dmem, dget?_dput_ne d k k' v hk] using h

theorem dget?_foldl_dput {α : Type} (f : String → α) (ls : List String)
    (acc : Dict α) (loc : String) :
    dget? (ls.foldl (fun a l => dput a l (f l)) acc) loc =
      if loc ∈ ls then some (f loc) else dget? acc loc := by
  induction ls generalizing acc with
  | nil => simp
  | cons l t ih =>
    rw [List.foldl_cons, ih]
    by_cases hmem : loc ∈ t
    · simp [hmem, List.mem_cons]
    · by_cases hl : loc = l
      · subst hl; simp [hmem, dget?_dput_self]
      · simp [hmem, hl, dget?_dput_ne acc l loc (f l) hl, List.mem_cons]

theorem dget?_mkValuesRow (fields localeHeaders : List String) (locales : List String)
    (row : List String) (loc : String) :
    dget? (mkValuesRow fields localeHeaders locales row) loc =
      if loc ∈ locales then some (localeCellVal fields localeHeaders row loc) else none := by
  unfold mkValuesRow
  rw [dget?_foldl_dput (localeCellVal fields localeHeaders row) locales [] loc]
  simp [dget?]

theorem pystrip_localeCellVal (fields localeHeaders : List String) (row : List String)
    (loc : String) :
    pystrip (localeCellVal fields localeHeaders row loc) = localeCellVal fields localeHeaders row loc := by
  unfold localeCellVal
  cases localeToHeader localeHeaders loc with
  | some h => exact pystrip_idem _
  | none => rfl

theorem backfill_fold_char
    (cellv : String → String) (enVal : String)
    (hen : pystrip enVal = enVal)
    (locales : List String)
    (hcell : ∀ loc, pystrip (cellv loc) = cellv loc)
    (L : List String) (hL : ∀ l ∈ L, l ∈ locales)
    (acc : Dict String)
    (hacc : ∀ loc, (loc ∈ locales →
        dget? acc loc = some (cellv loc) ∨
        dget? acc loc = some (if cellv loc = "" then enVal else cellv loc))
      ∧ (loc ∉ locales → dget? acc loc = none)) :
    (∀ loc ∈ L,
        dget? (L.foldl (fun acc loc => if pystrip (dgetD acc loc "") = "" then dput acc loc enVal else acc) acc) loc
          = some (if cellv loc = "" then enVal else cellv loc))
    ∧ (∀ loc, loc ∉ L →
        dget? (L.foldl (fun acc loc => if pystrip (dgetD acc loc "") = "" then dput acc loc enVal else acc) acc) loc
          = dget? acc loc) := by
  induction L generalizing acc with
  | nil => exact ⟨by simp, by simp⟩
  | cons l t ih =>
    have hl : l ∈ locales := hL l (List.mem_cons_self l t)
    have hstep : ∀ acc' : Dict String,
        acc' = (if pystrip (dgetD acc l "") = "" then dput acc l enVal else acc) →
        dget? acc' l = some (if cellv l = "" then enVal else cellv l)
          ∧ (∀ loc, ¬ loc = l → dget? acc' loc = dget? acc loc) := by
      intro acc' hdef
      rcases (hacc l).1 hl with h1 | h1
      · rw [show dgetD acc l "" = cellv l from by simp [dgetD, h1]] at hdef
        rw [hcell l] at hdef
        by_cases hc : cellv l = ""
        · rw [if_pos hc] at hdef
          subst hdef
          refine ⟨?_, fun loc hne => dget?_dput_ne acc l loc enVal hne⟩
          rw [dget?_dput_self, if_pos hc]
        · rw [if_neg hc] at hdef
          subst hdef
          exact ⟨by rw [h1, if_neg hc], fun loc _ => rfl⟩
      · by_cases hc : cellv l = ""
        · rw [if_pos hc] at h1
          rw [show dgetD acc l "" = enVal from by simp [dgetD, h1]] at hdef
          rw [hen] at hdef
          by_cases he : enVal = ""
          · rw [if_pos he] at hdef
            subst hdef
            refine ⟨?_, fun loc hne => dget?_dput_ne acc l loc enVal hne⟩
            rw [dget?_dput_self, if_pos hc]
          · rw [if_neg he] at hdef
            subst hdef
            exact ⟨by rw [h1, if_pos hc], fun loc _ => rfl⟩
        · rw [if_neg hc] at h1
          rw [show dgetD acc l "" = cellv l from by simp [dgetD, h1]] at hdef
          rw [hcell l, if_neg hc] at hdef
          subst hdef
          exact ⟨by rw [h1, if_neg hc], fun loc _ => rfl⟩
    obtain ⟨hstep1, hstep2⟩ :=
      hstep (if pystrip (dgetD acc l "") = "" then dput acc l enVal else acc) rfl
    have hacc' : ∀ loc, (loc ∈ locales →
        dget? (if pystrip (dgetD acc l "") = "" then dput acc l enVal else acc) loc = some (cellv loc) ∨
        dget? (if pystrip (dgetD acc l "") = "" then dput acc l enVal else acc) loc
          = some (if cellv loc = "" then enVal else cellv loc))
      ∧ (loc ∉ locales →
        dget? (if pystrip (dgetD acc l "") = "" then dput acc l enVal else acc) loc = none) := by
      intro loc
      constructor
      · intro hmem
        by_cases hne : loc = l
        · subst hne; right; exact hstep1
        · rw [hstep2 loc hne]; exact (hacc loc).1 hmem
      · intro hnm
        have hne : ¬ loc = l := fun he => hnm (he ▸ hl)
        rw [hstep2 loc hne]; exact (hacc loc).2 hnm
    obtain ⟨ih1, ih2⟩ := ih (fun x hx => hL x (List.mem_cons_of_mem l hx)) _ hacc'
    constructor
    · intro loc hmem
      rw [List.foldl_cons]
      rcases List.mem_cons.mp hmem with he | ht
      · by_cases htl : loc ∈ t
        · exact ih1 loc htl
        · rw [ih2 loc htl, he]; exact hstep1
      · exact ih1 loc ht
    · intro loc hnm
      rw [List.foldl_cons]
      have hnt : loc ∉ t := fun hx => hnm (List.mem_cons_of_mem l hx)
      have hne : ¬ loc = l := fun he => hnm (he ▸ List.mem_cons_self l t)
      rw [ih2 loc hnt]
      exact hstep2 loc hne

theorem en_rowValues (fields : List String) (locales : List String) (row : List String) :
    pystrip (dgetD (rowValues fields locales row) "en" "") =
      (if "en" ∈ locales then localeCellVal fields (localeHeadersOf fields) row "en" else "") := by
  unfold rowValues dgetD
  rw [dget?_mkValuesRow]
  by_cases h : "en" ∈ locales
  · simp [h, pystrip_localeCellVal]
  · simp [h, pystrip_empty]

theorem dget?_translatableResult
    (fields : List String) (locales : List String) (row : List String) (loc : String) :
    dget? (translatableResult fields locales row) loc =
      if loc ∈ locales then
        some (if localeCellVal fields (localeHeadersOf fields) row loc = ""
              then (if "en" ∈ locales
                    then localeCellVal fields (localeHeadersOf fields) row "en" else "")
              else localeCellVal fields (localeHeadersOf fields) row loc)
      else none := by
  unfold translatableResult backfillRow
  dsimp only
  rw [en_rowValues]
  have hen : pystrip (if "en" ∈ locales
      then localeCellVal fields (localeHeadersOf fields) row "en" else "") =
      (if "en" ∈ locales then localeCellVal fields (localeHeadersOf fields) row "en" else "") := by
    by_cases h : "en" ∈ locales
    · simp [h, pystrip_localeCellVal]
    · simp [h, pystrip_empty]
  obtain ⟨h1, h2⟩ := backfill_fold_char
    (localeCellVal fields (localeHeadersOf fields) row)
    (if "en" ∈ locales then localeCellVal fields (localeHeadersOf fields) row "en" else "")
    hen locales (pystrip_localeCellVal fields (localeHeadersOf fields) row)
    locales (fun _ h => h)
    (rowValues fields locales row)
    (by
      intro loc
      constructor
      · intro hmem
        left
        unfold rowValues
        rw [dget?_mkValuesRow, if_pos hmem]
      · intro hnm
        unfold rowValues
        rw [dget?_mkValuesRow, if_neg hnm])
  by_cases hmem : loc ∈ locales
  · rw [if_pos hmem]
    exact h1 loc hmem
  · rw [if_neg hmem, h2 loc hmem]
    unfold rowValues
    rw [dget?_mkValuesRow, if_neg hmem]

theorem en_translatableResult (fields : List String) (locales : List String) (row : List String) :
    dgetD (translatableResult fields locales row) "en" "" =
      (if "en" ∈ locales then localeCellVal fields (localeHeadersOf fields) row "en" else "") := by
  unfold dgetD
  rw [dget?_translatableResult]
  by_cases h : "en" ∈ locales
  · rw [if_pos h, if_pos h]
    by_cases hc : localeCellVal fields (localeHeadersOf fields) row "en" = ""
    · simp [hc, h]
    · simp [hc, h]
  · simp [h]

theorem fold_translations_source
    (fields : List String) (locales : List String) (rows : List (List String))
    (init : Dict (Dict String) × Dict String) (k : String) (vrow : Dict String)
    (h : dget? (rows.foldl (processRow fields locales) init).1 k = some vrow) :
    dget? init.1 k = some vrow ∨
      ∃ r ∈ rows, rowInternalKey? fields r = some k ∧
        STRUCTURE_KEYS.contains k = false ∧
        vrow = translatableResult fields locales r := by
  induction rows generalizing init with
  | nil => left; simpa using h
  | cons r t ih =>
    rw [List.foldl_cons] at h
    rcases ih (processRow fields locales init r) h with h1 | h1
    · unfold processRow at h1
      cases hik : rowInternalKey? fields r with
      | none => rw [hik] at h1; left; exact h1
      | some ik =>
        rw [hik] at h1
        dsimp only at h1
        by_cases hs : STRUCTURE_KEYS.contains ik
        · rw [if_pos hs] at h1; left; exact h1
        · rw [if_neg hs] at h1
          by_cases hk : k = ik
          · subst hk
            rw [dget?_dput_self] at h1
            right
            exact ⟨r, List.mem_cons_self r t, hik, eq_false_of_ne_true hs,
              (Option.some.inj h1).symm⟩
          · rw [dget?_dput_ne _ _ _ _ hk] at h1; left; exact h1
    · right
      obtain ⟨r', hr', rest⟩ := h1
      exact ⟨r', List.mem_cons_of_mem r hr', rest⟩

/-- **C1** (English-backfill invariant): every row stored in the translation
table by `load_translations` covers every requested locale, and comes from
some input row such that, wherever that row's cell for a locale is blank, the
stored value for that locale equals the stored `en` value, and the `when`
clause `build_content_captures` emits for that locale is the Liquid-escaped
`en` value. -/
theorem c1_english_backfill
    (fields : List String) (rows : List (List String)) (locales : List String)
    (hloc : ¬ locales.isEmpty = true)
    (k : String) (vrow : Dict String)
    (h : dget? (load_translations ⟨fields, rows⟩ (some locales)).1 k = some vrow) :
    (∀ loc ∈ locales, dmem loc vrow = true) ∧
    ∃ r ∈ rows, rowInternalKey? fields r = some k ∧
      vrow = translatableResult fields locales r ∧
      ∀ loc ∈ locales,
        localeCellVal fields (localeHeadersOf fields) r loc = "" →
          dgetD vrow loc "" = dgetD vrow "en" "" ∧
          whenValue vrow loc = escapeLiquidRaw (pystrip (dgetD vrow "en" "")) := by
  have hloc' : locales.isEmpty = false := eq_false_of_ne_true hloc
  simp only [load_translations, hloc', Bool.false_eq_true, if_false] at h
  by_cases hf : fields.isEmpty = true
  case pos =>
    rw [if_pos hf] at h
    simp [dget?] at h
  case neg =>
    rw [if_neg hf] at h
    rcases fold_translations_source fields locales rows ([], []) k vrow h with h1 | h1
    · simp [dget?] at h1
    · obtain ⟨r, hr, hik, _, hv⟩ := h1
      have hmemv : ∀ loc ∈ locales, dmem loc vrow = true := by
        intro loc hmem
        rw [hv]
        unfold dmem
        rw [dget?_translatableResult, if_pos hmem]
        rfl
      refine ⟨hmemv, r, hr, hik, hv, ?_⟩
      intro loc hmem hblank
      have hen' : dgetD vrow "en" "" =
          (if "en" ∈ locales then localeCellVal fields (localeHeadersOf fields) r "en" else "") := by
        rw [hv]; exact en_translatableResult fields locales r
      have hloc'' : dgetD vrow loc "" =
          (if "en" ∈ locales then localeCellVal fields (localeHeadersOf fields) r "en" else "") := by
        rw [hv]
        unfold dgetD
        rw [dget?_translatableResult, if_pos hmem, if_pos hblank]
        rfl
      have hpen : pystrip (if "en" ∈ locales
          then localeCellVal fields (localeHeadersOf fields) r "en" else "") =
          (if "en" ∈ locales then localeCellVal fields (localeHeadersOf fields) r "en" else "") := by
        by_cases he : "en" ∈ locales
        · simp [he, pystrip_localeCellVal]
        · simp [he, pystrip_empty]
      constructor
      · rw [hloc'', hen']
      · unfold whenValue
        rw [hloc'', hen', hpen]
        by_cases hz : (if "en" ∈ locales
            then localeCellVal fields (localeHeadersOf fields) r "en" else "") = ""
        · rw [if_pos hz, hz]
        · rw [if_neg hz]

/-- Witness for C1 at a concrete input: a `(Key, en, fr)` sheet whose `fr`
cell is blank; the stored row backfills `fr` from `en`. -/
theorem c1_english_backfill_witness :
    (∀ loc ∈ (["en", "fr"] : List String),
        dmem loc [("en", "Hello"), ("fr", "Hello")] = true) ∧
    ∃ r ∈ [["headline", "Hello", ""]],
      rowInternalKey? ["Key", "en", "fr"] r = some "headline" ∧
      ([("en", "Hello"), ("fr", "Hello")] : Dict String)
        = translatableResult ["Key", "en", "fr"] ["en", "fr"] r ∧
      ∀ loc ∈ (["en", "fr"] : List String),
        localeCellVal ["Key", "en", "fr"] (localeHeadersOf ["Key", "en", "fr"]) r loc = "" →
          dgetD [("en", "Hello"), ("fr", "Hello")] loc ""
              = dgetD [("en", "Hello"), ("fr", "Hello")] "en" "" ∧
          whenValue [("en", "Hello"), ("fr", "Hello")] loc
              = escapeLiquidRaw (pystrip (dgetD [("en", "Hello"), ("fr", "Hello")] "en" "")) :=
  c1_english_backfill ["Key", "en", "fr"] [["headline", "Hello", ""]] ["en", "fr"]
    (by decide) "headline" [("en", "Hello"), ("fr", "Hello")] (by decide)

/-- **C4** (two-column-hero non-overlap): whenever `hero_two_col_body_1_h2`
is present in the translation table, `build_rows_below_image` returns the
empty string, whatever else the tables contain. -/
theorem c4_two_col_suppresses_below (t : Dict (Dict String)) (s : Dict String)
    (h : dmem "hero_two_col_body_1_h2" t = true) :
    build_rows_below_image t s = "" := by
  simp [build_rows_below_image, h]

/-- Witness for C4 at a concrete input containing `hero_two_col_body_1_h2`
together with body and CTA content. -/
theorem c4_two_col_suppresses_below_witness :
    dmem "hero_two_col_body_1_h2"
        [("hero_two_col_body_1_h2", [("en", "F1")]), ("body_1", [("en", "B")]),
         ("cta_text", [("en", "Go")])] = true ∧
    build_rows_below_image
        [("hero_two_col_body_1_h2", [("en", "F1")]), ("body_1", [("en", "B")]),
         ("cta_text", [("en", "Go")])]
        [("cta_link", "https://example.com")] = "" :=
  ⟨by decide,
   c4_two_col_suppresses_below
     [("hero_two_col_body_1_h2", [("en", "F1")]), ("body_1", [("en", "B")]),
      ("cta_text", [("en", "Go")])]
     [("cta_link", "https://example.com")] (by decide)⟩

/-- **C6** (module slot mapping): a Module-format row with module
`hero_module` and field `headline` resolves to the internal key `headline`;
`app_download_module` rows with fields `colour` and `color` both resolve to
`app_download_colour`. -/
theorem c6_module_slot_mapping :
    rowInternalKey? ["Key", "Module", "module_index", "en"]
        ["headline", "hero_module", "1", "x"] = some "headline"
    ∧ rowInternalKey? ["Key", "Module", "module_index", "en"]
        ["colour", "app_download_module", "1", "x"] = some "app_download_colour"
    ∧ rowInternalKey? ["Key", "Module", "module_index", "en"]
        ["color", "app_download_module", "1", "x"]
      = rowInternalKey? ["Key", "Module", "module_index", "en"]
        ["colour", "app_download_module", "1", "x"]
    ∧ resolveModuleField "hero_module" "headline" = some "headline"
    ∧ resolveModuleField "app_download_module" "colour" = some "app_download_colour"
    ∧ resolveModuleField "app_download_module" "color"
      = resolveModuleField "app_download_module" "colour" := by
  refine ⟨by decide, by decide, by decide, by decide, by decide, by decide⟩

theorem normaliseUrl_blank (url : String) (h : pystrip url = "") : normaliseUrl url = "" := by
  simp [normaliseUrl, h]

set_option maxRecDepth 100000 in
/-- Counterexample for C7: the hero image URLs are spliced into the template
without `_normalise_url` — an `image_url` of `www.example.com/hero.png`,
which lacks a `://` separator, is emitted verbatim as the `img src`
attribute, and no `https://` prefix appears anywhere in the image-row
fragment.  So "every URL spliced into the generated template that lacks a
`://` scheme separator is prefixed with `https://`" is false of the
program. -/
theorem c7_spliced_url_counterexample :
    ∃ out, generate_template
        (some ⟨["Key", "en"], [["image_url", "www.example.com/hero.png"]]⟩) none
        = Except.ok out
      ∧ strContains out.imageRow "src=\x22www.example.com/hero.png\x22" = true
      ∧ strContains out.imageRow "https://" = false
      ∧ strContains "www.example.com/hero.png" "://" = false := by
  refine ⟨_, rfl, by decide, by decide, by decide⟩

set_option maxRecDepth 100000 in
/-- C7 as amended (URL handling): a non-blank URL without a `://` separator
is prefixed with `https://` by `_normalise_url`; a blank `image_url` yields
an empty image-row fragment; a blank or missing `cta_link` suppresses the
CTA row, so the rows-below-image fragment contains no anchor element at all.
The normalisation is applied to the URLs routed through `_normalise_url`
before splicing — the hero image deeplink, the CTA link and the module
image/icon URLs — while the hero image `src` URLs (`image_url`,
`image_url_mobile`) are spliced as-is, HTML-escaped but never
scheme-normalised. -/
theorem c7_amended_url_handling :
    (∀ url : String, ¬ pystrip url = "" → strContains (pystrip url) "://" = false →
        normaliseUrl url = "https://" ++ pystrip url)
    ∧ (∀ s : Dict String, pystrip (dgetD s "image_url" "") = "" → build_image_row s = "")
    ∧ (∀ (t : Dict (Dict String)) (s : Dict String), pystrip (dgetD s "cta_link" "") = "" →
        strContains (build_rows_below_image t s) "<a " = false)
    ∧ strContains
        (build_image_row [("image_url", "www.x.com/a.png"), ("image_deeplink", "www.x.com/land")])
        "href=\x22https://www.x.com/land\x22" = true
    ∧ strContains
        (build_image_row [("image_url", "www.x.com/a.png"), ("image_deeplink", "www.x.com/land")])
        "src=\x22www.x.com/a.png\x22" = true
    ∧ strContains
        (build_rows_below_image [("cta_text", [("en", "Go")])] [("cta_link", "www.x.com/buy")])
        "href=\x22https://www.x.com/buy\x22" = true
    ∧ strContains
        (build_usp_module [("usp_title", [("en", "T")])] [("usp_1_icon_url", "www.x.com/i.png")])
        "src=\x22https://www.x.com/i.png\x22" = true := by
  refine ⟨?_, ?_, ?_, by decide, by decide, by decide, by decide⟩
  · intro url h1 h2
    simp [normaliseUrl, h1, h2]
  · intro s h
    simp [build_image_row, h]
  · intro t s h
    have hcta : normaliseUrl (dgetD s "cta_link" "") = "" := normaliseUrl_blank _ h
    unfold build_rows_below_image
    rw [hcta]
    simp only [show (!(("" : String) == "")) = false from rfl, Bool.and_false,
      Bool.false_eq_true, if_false, List.append_nil]
    by_cases h2 : dmem "hero_two_col_body_1_h2" t = true
    · simp [h2]; decide
    · rw [eq_false_of_ne_true h2]
      simp only [Bool.false_eq_true, if_false]
      by_cases hb1 : dmem "body_1" t = true
      · by_cases hb2 : dmem "body_2" t = true
        · rw [hb1, hb2]; decide
        · rw [hb1, eq_false_of_ne_true hb2]; decide
      · by_cases hb2 : dmem "body_2" t = true
        · rw [eq_false_of_ne_true hb1, hb2]; decide
        · rw [eq_false_of_ne_true hb1, eq_false_of_ne_true hb2]; decide

/-- Witness for the amended C7 statement at concrete inputs: `vio.com` gains
an `https://` scheme, a structure table without `image_url` yields an empty
image row, and a table with `cta_text` but no `cta_link` yields a fragment
without an anchor. -/
theorem c7_amended_url_handling_witness :
    normaliseUrl " vio.com " = "https://" ++ pystrip " vio.com "
    ∧ build_image_row [("cta_link", "x")] = ""
    ∧ strContains (build_rows_below_image [("cta_text", [("en", "Go")])] []) "<a " = false :=
  ⟨c7_amended_url_handling.1 " vio.com " (by decide) (by decide),
   c7_amended_url_handling.2.1 [("cta_link", "x")] (by decide),
   c7_amended_url_handling.2.2.1 [("cta_text", [("en", "Go")])] [] (by decide)⟩

/-- **C9** (error handling): `generate_template` signals the file-not-found
failure exactly when the input file is missing, and `load_translations` on a
header-less spreadsheet returns two empty tables without failing. -/
theorem c9_error_handling :
    (∀ (file : Option ParsedCSV) (inc : Option (List String)),
        generate_template file inc = Except.error GenError.fileNotFound ↔ file = none)
    ∧ (∀ (rows : List (List String)) (inc : Option (List String)),
        load_translations ⟨[], rows⟩ inc = ([], [])) := by
  constructor
  · intro file inc
    constructor
    · intro h
      cases file with
      | none => rfl
      | some csv =>
        exfalso
        simp only [generate_template] at h
        split at h <;> simp at h
    · intro h; subst h; rfl
  · intro rows inc
    rfl

/-- Witness for C9: a missing file raises the file-not-found failure, and a
header-less sheet loads as two empty tables. -/
theorem c9_error_handling_witness :
    generate_template none none = Except.error GenError.fileNotFound
    ∧ load_translations ⟨[], [["a", "b"]]⟩ none = ([], []) :=
  ⟨(c9_error_handling.1 none none).mpr rfl, c9_error_handling.2 [["a", "b"]] none⟩

/-- Counterexample for C10: a sheet whose only locale column is `fr` is
processed with locales `["fr"]` — the English locale is not processed, so
"every generation call processes at least the English locale" fails. -/
theorem c10_counterexample :
    get_csv_locales ["Key", "fr"] = ["fr"]
    ∧ ("en" ∈ get_csv_locales ["Key", "fr"] → False) := by
  refine ⟨by decide, by decide⟩

/-- C10 as amended: `get_csv_locales` always returns a non-empty subsequence
of `LOCALE_COLUMNS`, and returns exactly `["en"]` when no header matches any
known locale — so every generation call processes at least one locale (not
necessarily English). -/
theorem c10_amended_locale_inference (fields : List String) :
    get_csv_locales fields ≠ []
    ∧ List.Sublist (get_csv_locales fields) LOCALE_COLUMNS
    ∧ ((LOCALE_COLUMNS.all (fun loc =>
          !((gclLocaleHeaders fields).any (fun h => gclMatch loc h)))) = true →
        get_csv_locales fields = ["en"]) := by
  have hA : (LOCALE_COLUMNS.filter (fun loc =>
        (gclLocaleHeaders fields).any (fun h => gclMatch loc h))) = [] →
      ((gclLocaleHeaders fields).map pystrip).filter
        (fun hc => LOCALE_COLUMNS.contains hc) = [] := by
    intro hf
    rw [List.filter_eq_nil_iff]
    intro hc hmem
    obtain ⟨h0, hh0, rfl⟩ := List.mem_map.mp hmem
    intro hcon
    have hmemLC : pystrip h0 ∈ LOCALE_COLUMNS := by simpa using hcon
    have hpred : (gclLocaleHeaders fields).any (fun h => gclMatch (pystrip h0) h) = true := by
      rw [List.any_eq_true]
      refine ⟨h0, hh0, ?_⟩
      unfold gclMatch
      simp
    have hmemf : pystrip h0 ∈ LOCALE_COLUMNS.filter (fun loc =>
        (gclLocaleHeaders fields).any (fun h => gclMatch loc h)) :=
      List.mem_filter.mpr ⟨hmemLC, hpred⟩
    rw [hf] at hmemf
    exact absurd hmemf (List.not_mem_nil _)
  by_cases hf : (LOCALE_COLUMNS.filter (fun loc =>
      (gclLocaleHeaders fields).any (fun h => gclMatch loc h))) = []
  · have hres : get_csv_locales fields = ["en"] := by
      simp only [get_csv_locales]
      rw [hf, hA hf]
      simp
    refine ⟨by simp [hres], ?_, fun _ => hres⟩
    rw [hres]
    show List.Sublist ["en"] LOCALE_COLUMNS
    exact List.Sublist.cons₂ _ (List.nil_sublist _)
  · have hres : get_csv_locales fields = LOCALE_COLUMNS.filter (fun loc =>
        (gclLocaleHeaders fields).any (fun h => gclMatch loc h)) := by
      simp only [get_csv_locales]
      have h1 : (LOCALE_COLUMNS.filter (fun loc =>
          (gclLocaleHeaders fields).any (fun h => gclMatch loc h))).isEmpty = false := by
        simpa [List.isEmpty_iff] using hf
      rw [h1]
      simp [h1, List.isEmpty_iff, hf]
    refine ⟨by rw [hres]; exact hf, by rw [hres]; exact List.filter_sublist _, ?_⟩
    intro hall
    exfalso
    apply hf
    rw [List.filter_eq_nil_iff]
    intro loc hmem
    have := List.all_eq_true.mp hall loc hmem
    simp at this
    simpa using this

/-- Witness for C10's amended statement at a concrete header with no
recognisable locale column. -/
theorem c10_amended_locale_inference_witness :
    get_csv_locales ["Key", "zz"] ≠ []
    ∧ List.Sublist (get_csv_locales ["Key", "zz"]) LOCALE_COLUMNS
    ∧ get_csv_locales ["Key", "zz"] = ["en"] :=
  ⟨(c10_amended_locale_inference ["Key", "zz"]).1,
   (c10_amended_locale_inference ["Key", "zz"]).2.1,
   (c10_amended_locale_inference ["Key", "zz"]).2.2 (by decide)⟩

theorem filter_contains_of_sublist :
    ∀ (l2 l1 : List String), List.Sublist l1 l2 → l2.Nodup →
      l2.filter (fun x => l1.contains x) = l1 := by
  intro l2
  induction l2 with
  | nil =>
    intro l1 h _
    rw [List.sublist_nil.mp h]
    rfl
  | cons a t ih =>
    intro l1 h hnd
    have ha := (List.nodup_cons.mp hnd).1
    have hnd2 := (List.nodup_cons.mp hnd).2
    cases h with
    | cons a' h' =>
      rw [List.filter_cons]
      have hna : a ∉ l1 := fun hx => ha (h'.subset hx)
      have hca : l1.contains a = false := by simpa using hna
      simp only [hca, Bool.false_eq_true, if_false]
      exact ih l1 h' hnd2
    | cons₂ a' h' =>
      rename_i l1'
      rw [List.filter_cons]
      have hca : (a :: l1').contains a = true := by simp
      simp only [hca, if_true]
      have hcongr : t.filter (fun x => (a :: l1').contains x)
          = t.filter (fun x => l1'.contains x) := by
        apply List.filter_congr
        intro x hx
        have hxa : ¬ x = a := fun he => ha (he ▸ hx)
        simp [List.contains_cons, hxa]
      rw [hcongr, ih l1' h' hnd2]

theorem locale_columns_nodup : LOCALE_COLUMNS.Nodup := by decide

/-- Counterexample for C2: requesting locales `["ja", "ar"]` (as the CLI
`--include-locales ja,ar` or the `top_5` preset does for other pairs) with
both cells populated, the code stores the `ja` value — the first non-blank
cell in *requested* order — whereas the fixed locale-table order (`ar`
before `ja`) would give the `ar` value. -/
theorem c2_structural_counterexample :
    dget? (load_translations ⟨["Key", "ja", "ar"], [["image_url", "J", "A"]]⟩
        (some ["ja", "ar"])).2 "image_url" = some "J"
    ∧ specStructResolveTableOrder ["ja", "ar"]
        (rowValues ["Key", "ja", "ar"] ["ja", "ar"] ["image_url", "J", "A"]) = "A"
    ∧ ("J" : String) ≠ "A" := by
  refine ⟨by decide, by decide, by decide⟩

/-- C2 as amended: for a structural key not yet present in the table, the
stored value is the first non-blank cell scanning the requested locales in
the *requested* order, falling back to the (possibly blank) `en` cell when
every scanned cell is blank; this coincides with the spec's fixed-table-order
scan whenever the requested list is drawn in table order (as every list
inferred from the CSV is). -/
theorem c2_amended_structural_resolution
    (fields : List String) (locales : List String) (r : List String)
    (st : Dict (Dict String) × Dict String) (k : String)
    (hik : rowInternalKey? fields r = some k)
    (hs : STRUCTURE_KEYS.contains k = true)
    (hfresh : dmem k st.2 = false) :
    dget? (processRow fields locales st r).2 k =
      some ((codeStructResolve locales (rowValues fields locales r)).getD
              (pystrip (dgetD (rowValues fields locales r) "en" "")))
    ∧ (List.Sublist locales LOCALE_COLUMNS →
        (codeStructResolve locales (rowValues fields locales r)).getD
            (pystrip (dgetD (rowValues fields locales r) "en" ""))
          = specStructResolveTableOrder locales (rowValues fields locales r)) := by
  constructor
  · unfold processRow
    rw [hik]
    dsimp only
    rw [if_pos hs]
    show dget? (structPut st.2 k locales (rowValues fields locales r)) k = _
    unfold structPut codeStructResolve
    cases hres : locales.findSome? (fun loc =>
        let v := pystrip (dgetD (rowValues fields locales r) loc "")
        if v = "" then none else some v) with
    | some v => rw [dget?_dput_self]; rfl
    | none =>
      rw [hfresh]
      simp only [Bool.false_eq_true, if_false]
      rw [dget?_dput_self]
      rfl
  · intro hsub
    unfold specStructResolveTableOrder codeStructResolve
    rw [filter_contains_of_sublist LOCALE_COLUMNS locales hsub locale_columns_nodup]
    cases hres : locales.findSome? (fun loc =>
        let v := pystrip (dgetD (rowValues fields locales r) loc "")
        if v = "" then none else some v) <;> rfl

/-- Witness for C2's amended statement: a fresh structural key with a blank
`en` cell and a populated `fr` cell resolves to the `fr` value, matching the
table-order scan since `["en", "fr"]` is in table order. -/
theorem c2_amended_structural_resolution_witness :
    dget? (processRow ["Key", "en", "fr"] ["en", "fr"] ([], [])
        ["image_url", "", "F"]).2 "image_url" =
      some ((codeStructResolve ["en", "fr"]
              (rowValues ["Key", "en", "fr"] ["en", "fr"] ["image_url", "", "F"])).getD
              (pystrip (dgetD (rowValues ["Key", "en", "fr"] ["en", "fr"]
                ["image_url", "", "F"]) "en" "")))
    ∧ (codeStructResolve ["en", "fr"]
          (rowValues ["Key", "en", "fr"] ["en", "fr"] ["image_url", "", "F"])).getD
          (pystrip (dgetD (rowValues ["Key", "en", "fr"] ["en", "fr"]
            ["image_url", "", "F"]) "en" ""))
        = specStructResolveTableOrder ["en", "fr"]
            (rowValues ["Key", "en", "fr"] ["en", "fr"] ["image_url", "", "F"]) :=
  ⟨(c2_amended_structural_resolution ["Key", "en", "fr"] ["en", "fr"]
      ["image_url", "", "F"] ([], []) "image_url" (by decide) (by decide) (by decide)).1,
   (c2_amended_structural_resolution ["Key", "en", "fr"] ["en", "fr"]
      ["image_url", "", "F"] ([], []) "image_url" (by decide) (by decide) (by decide)).2
     (by decide)⟩

/-- Counterexample for C8: two rows for the structural key `image_url`, the
later one entirely blank.  The later row alone would resolve the key to the
blank `en` value, but loading both rows retains the earlier value `A` — the
later row does not overwrite. -/
theorem c8_duplicate_counterexample :
    dget? (load_translations ⟨["Key", "en"], [["image_url", "A"], ["image_url", ""]]⟩
        none).2 "image_url" = some "A"
    ∧ dget? (load_translations ⟨["Key", "en"], [["image_url", ""]]⟩ none).2 "image_url"
        = some ""
    ∧ ("A" : String) ≠ "" := by
  refine ⟨by decide, by decide, by decide⟩

/-- C8 as amended: processing a later row for the same internal key
overwrites unconditionally for translatable keys; for structural keys it
overwrites exactly when the row has a non-blank cell among the scanned
locales, while an all-blank row leaves an already-present value unchanged
(the `en` fallback fires only for a key not yet present).  No error or
diagnostic is raised in any case (`load_translations` is total). -/
theorem c8_amended_duplicate_overwrite
    (fields : List String) (locales : List String)
    (st : Dict (Dict String) × Dict String) (r : List String) (k : String)
    (hik : rowInternalKey? fields r = some k) :
    (STRUCTURE_KEYS.contains k = false →
        dget? (processRow fields locales st r).1 k = some (translatableResult fields locales r))
    ∧ (STRUCTURE_KEYS.contains k = true →
        dget? (processRow fields locales st r).2 k =
          (match codeStructResolve locales (rowValues fields locales r) with
           | some v => some v
           | none => if dmem k st.2 then dget? st.2 k
                     else some (pystrip (dgetD (rowValues fields locales r) "en" "")))) := by
  constructor
  · intro hs
    unfold processRow
    rw [hik]
    dsimp only
    rw [hs]
    simp only [Bool.false_eq_true, if_false]
    exact dget?_dput_self _ _ _
  · intro hs
    unfold processRow
    rw [hik]
    dsimp only
    rw [if_pos hs]
    show dget? (structPut st.2 k locales (rowValues fields locales r)) k = _
    unfold structPut codeStructResolve
    cases hres : locales.findSome? (fun loc =>
        let v := pystrip (dgetD (rowValues fields locales r) loc "")
        if v = "" then none else some v) with
    | some v => rw [dget?_dput_self]
    | none =>
      by_cases hmem : dmem k st.2 = true
      · rw [if_pos hmem, if_pos hmem]
      · rw [eq_false_of_ne_true hmem]
        simp only [Bool.false_eq_true, if_false]
        rw [dget?_dput_self]

/-- Witness for C8's amended statement: a later all-blank structural row on a
state already holding `image_url` leaves the earlier value in place. -/
theorem c8_amended_duplicate_overwrite_witness :
    dget? (processRow ["Key", "en"] ["en"] ([], [("image_url", "A")])
        ["image_url", ""]).2 "image_url" =
      (match codeStructResolve ["en"] (rowValues ["Key", "en"] ["en"] ["image_url", ""]) with
       | some v => some v
       | none => if dmem "image_url" [("image_url", "A")]
                 then dget? [("image_url", "A")] "image_url"
                 else some (pystrip (dgetD (rowValues ["Key", "en"] ["en"] ["image_url", ""]) "en" ""))) :=
  (c8_amended_duplicate_overwrite ["Key", "en"] ["en"] ([], [("image_url", "A")])
    ["image_url", ""] "image_url" (by decide)).2 (by decide)

set_option maxRecDepth 100000 in
/-- Counterexample for C3: for the CSV with header `Key,en` and rows
`headline,Hello` / `cta_text,Click me`, the rows-below-image fragment is the
empty string (no `cta_link` is supplied, so the CTA row is suppressed) and so
contains no literal `Click me`; moreover the rows-above-image fragment does
not contain the literal `Hello` — the headline text lives in the Liquid
captures, the fragment only references the `headline` variable. -/
theorem c3_scenario_counterexample :
    build_rows_below_image
        (load_translations ⟨["Key", "en"], [["headline", "Hello"], ["cta_text", "Click me"]]⟩ none).1
        (load_translations ⟨["Key", "en"], [["headline", "Hello"], ["cta_text", "Click me"]]⟩ none).2
      = ""
    ∧ strContains
        (build_rows_below_image
          (load_translations ⟨["Key", "en"], [["headline", "Hello"], ["cta_text", "Click me"]]⟩ none).1
          (load_translations ⟨["Key", "en"], [["headline", "Hello"], ["cta_text", "Click me"]]⟩ none).2)
        "Click me" = false
    ∧ strContains
        (build_rows_above_image
          (load_translations ⟨["Key", "en"], [["headline", "Hello"], ["cta_text", "Click me"]]⟩ none).1)
        "Hello" = false := by
  refine ⟨by decide, by decide, by decide⟩

set_option maxRecDepth 100000 in
/-- C3 as amended: for that CSV the generated template's rows-above-image
fragment contains an `h1` element wrapping the `headline` Liquid variable,
the content captures bind the literals `Hello` and `Click me` to their
variables, the rows-below-image fragment is empty (the CTA row requires a
non-empty `cta_link`), and no two-column, USP or app-download module
fragment is generated. -/
theorem c3_scenario_amended :
    ∃ out, generate_template
        (some ⟨["Key", "en"], [["headline", "Hello"], ["cta_text", "Click me"]]⟩) none
        = Except.ok out
      ∧ strContains out.rowsAboveImage "<h1" = true
      ∧ strContains out.rowsAboveImage "\x7b\x7b headline | strip \x7d\x7d" = true
      ∧ strContains out.contentCaptures "Hello" = true
      ∧ strContains out.contentCaptures "Click me" = true
      ∧ out.rowsBelowImage = ""
      ∧ out.imageRow = ""
      ∧ out.heroTwoColumnModule = ""
      ∧ out.iconLeftTextRightModule = ""
      ∧ out.textLeftImageRightModule = ""
      ∧ out.alternatingTextImageModule = ""
      ∧ out.appDownloadModule = "" := by
  refine ⟨_, rfl, by decide, by decide, by decide, by decide, by decide, by decide,
    by decide, by decide, by decide, by decide, by decide⟩

/-! ### Lemmas for the input-template round trip (C5) -/

theorem dget?_mem {α : Type} (d : Dict α) (k : String) (v : α)
    (h : dget? d k = some v) : (k, v) ∈ d := by
  induction d with
  | nil => simp [dget?] at h
  | cons p t ih =>
    by_cases hp : p.1 == k
    · have hpk : p.1 = k := by simpa using hp
      rw [dget?, if_pos hp] at h
      have : p = (k, v) := by
        cases p
        simp only at hpk h
        injection h with h'
        rw [hpk, h']
      rw [← this]
      exact List.mem_cons_self p t
    · rw [dget?, if_neg hp] at h
      exact List.mem_cons_of_mem p (ih h)

theorem genEntriesAux_source (modules : List String) (indices : Dict Nat)
    (e : TemplateEntry) (h : e ∈ genEntriesAux indices modules) :
    ∃ rows0, (e.moduleName, rows0) ∈ MODULE_TEMPLATE_ROWS ∧
      (e.csvKey, e.placeholder) ∈ rows0 := by
  induction modules generalizing indices with
  | nil => simp [genEntriesAux] at h
  | cons m rest ih =>
    unfold genEntriesAux at h
    cases hrows : dget? MODULE_TEMPLATE_ROWS m with
    | none =>
      rw [hrows] at h
      exact ih _ h
    | some trows =>
      rw [hrows] at h
      dsimp only at h
      rcases List.mem_append.mp h with h1 | h1
      · obtain ⟨kp, hkp, he⟩ := List.mem_map.mp h1
        refine ⟨trows, ?_, ?_⟩
        · rw [← he]
          exact dget?_mem _ _ _ hrows
        · rw [← he]
          exact hkp
      · exact ih _ h1

/-- Every row of `MODULE_TEMPLATE_ROWS` resolves (via the same module-slot
resolution `load_translations` uses) to an internal key whose
`canonPlaceholders` entry is exactly that row's placeholder; placeholders are
strip-invariant and key/module names normalise to non-blank strings. -/
theorem template_entries_good :
    ∀ mr ∈ MODULE_TEMPLATE_ROWS, ∀ kp ∈ Prod.snd mr,
      ¬ normKey (Prod.fst kp) = ""
      ∧ ¬ normKey (Prod.fst mr) = ""
      ∧ (resolveModuleField (normKey (Prod.fst mr)) (normKey (Prod.fst kp))).isSome = true
      ∧ dget? canonPlaceholders
          ((resolveModuleField (normKey (Prod.fst mr)) (normKey (Prod.fst kp))).getD "")
          = some (Prod.snd kp)
      ∧ pystrip (Prod.snd kp) = Prod.snd kp := by decide

theorem rowInternalKey?_std (a b c d : String) :
    rowInternalKey? ["Key", "Module", "module_index", "en"] [a, b, c, d] =
      if normKey a = "" then none
      else if normKey b = "" then some (normKey a)
      else resolveModuleField (normKey b) (normKey a) := by
  unfold rowInternalKey?
  have hm : isModuleFormat ["Key", "Module", "module_index", "en"] = true := by decide
  have hk : rowCell ["Key", "Module", "module_index", "en"] [a, b, c, d]
      (["Key", "Module", "module_index", "en"].getD 0 "") = a := rfl
  have hb : rowCell ["Key", "Module", "module_index", "en"] [a, b, c, d]
      (["Key", "Module", "module_index", "en"].getD 1 "") = b := rfl
  rw [hm, hk, hb]
  by_cases ha : normKey a = ""
  · simp [ha]
  · rw [if_neg ha, if_neg ha]
    by_cases hbb : normKey b = ""
    · simp [hbb]
    · have : ¬ (normKey b == "") = true := by simpa using hbb
      simp [hbb, this]

theorem rowValues_std (a b c d : String) :
    rowValues ["Key", "Module", "module_index", "en"] ["en"] [a, b, c, d]
      = [("en", pystrip d)] := rfl

theorem translatableResult_std (a b c d : String) :
    translatableResult ["Key", "Module", "module_index", "en"] ["en"] [a, b, c, d]
      = [("en", pystrip d)] := by
  unfold translatableResult backfillRow
  rw [rowValues_std]
  show List.foldl _ [("en", pystrip d)] ["en"] = _
  simp only [List.foldl_cons, List.foldl_nil]
  have hget : dgetD [("en", pystrip d)] "en" "" = pystrip d := rfl
  rw [hget, pystrip_idem]
  by_cases hd : pystrip d = ""
  · rw [if_pos hd]
    rfl
  · rw [if_neg hd]

theorem dget?_structPut_ne (s : Dict String) (k k' : String) (locales : List String)
    (vrow : Dict String) (h : ¬ k' = k) :
    dget? (structPut s k locales vrow) k' = dget? s k' := by
  unfold structPut
  cases locales.findSome? (fun loc =>
      let v := pystrip (dgetD vrow loc "")
      if v = "" then none else some v) with
  | some v => exact dget?_dput_ne s k k' v h
  | none =>
    by_cases hm : dmem k s = true
    · rw [hm]
      simp only [if_true]
    · rw [eq_false_of_ne_true hm]
      simp only [Bool.false_eq_true, if_false]
      exact dget?_dput_ne s k k' _ h

theorem c5_step
    (st : Dict (Dict String) × Dict String) (ik : String) (row : List String)
    (hshape : ∃ a b c d, row = [a, b, c, d] ∧
        (rowInternalKey? ["Key", "Module", "module_index", "en"] row = some ik →
          pystrip d = dgetD canonPlaceholders ik ""))
    (hinv : (dget? st.1 ik = none ∨
              dget? st.1 ik = some [("en", dgetD canonPlaceholders ik "")])
          ∧ (dget? st.2 ik = none ∨
              dget? st.2 ik = some (dgetD canonPlaceholders ik ""))) :
    ((dget? (processRow ["Key", "Module", "module_index", "en"] ["en"] st row).1 ik = none ∨
      dget? (processRow ["Key", "Module", "module_index", "en"] ["en"] st row).1 ik
        = some [("en", dgetD canonPlaceholders ik "")])
     ∧ (dget? (processRow ["Key", "Module", "module_index", "en"] ["en"] st row).2 ik = none ∨
        dget? (processRow ["Key", "Module", "module_index", "en"] ["en"] st row).2 ik
          = some (dgetD canonPlaceholders ik "")))
    ∧ ((dget? st.1 ik).isSome = true →
        (dget? (processRow ["Key", "Module", "module_index", "en"] ["en"] st row).1 ik).isSome = true)
    ∧ ((dget? st.2 ik).isSome = true →
        (dget? (processRow ["Key", "Module", "module_index", "en"] ["en"] st row).2 ik).isSome = true)
    ∧ (rowInternalKey? ["Key", "Module", "module_index", "en"] row = some ik →
        (STRUCTURE_KEYS.contains ik = false →
          (dget? (processRow ["Key", "Module", "module_index", "en"] ["en"] st row).1 ik).isSome = true)
        ∧ (STRUCTURE_KEYS.contains ik = true →
          (dget? (processRow ["Key", "Module", "module_index", "en"] ["en"] st row).2 ik).isSome = true)) := by
  obtain ⟨a, b, c, d, rfl, hgood⟩ := hshape
  cases hik : rowInternalKey? ["Key", "Module", "module_index", "en"] [a, b, c, d] with
  | none =>
    unfold processRow
    rw [hik]
    exact ⟨hinv, fun h => h, fun h => h, fun htr => absurd htr (by simp [hik])⟩
  | some ik' =>
    unfold processRow
    rw [hik]
    dsimp only
    by_cases hsk : STRUCTURE_KEYS.contains ik' = true
    · rw [if_pos hsk]
      by_cases hik2 : ik' = ik
      · subst hik2
        have hcanon : pystrip d = dgetD canonPlaceholders ik' "" := hgood hik
        have hval : rowValues ["Key", "Module", "module_index", "en"] ["en"] [a, b, c, d]
            = [("en", dgetD canonPlaceholders ik' "")] := by
          rw [rowValues_std, hcanon]
        have hstrip : pystrip (dgetD canonPlaceholders ik' "")
            = dgetD canonPlaceholders ik' "" := by
          rw [← hcanon, pystrip_idem]
        have hresolved : dget? (structPut st.2 ik' ["en"]
            (rowValues ["Key", "Module", "module_index", "en"] ["en"] [a, b, c, d])) ik'
            = some (dgetD canonPlaceholders ik' "") := by
          rw [hval]
          unfold structPut
          have hget : (dgetD [("en", dgetD canonPlaceholders ik' "")] "en" "")
              = dgetD canonPlaceholders ik' "" := rfl
          by_cases hc : dgetD canonPlaceholders ik' "" = ""
          · have hfs : (["en"] : List String).findSome? (fun loc =>
                let v := pystrip (dgetD [("en", dgetD canonPlaceholders ik' "")] loc "")
                if v = "" then none else some v) = none := by
              rw [List.findSome?_cons]
              simp only [hget, hstrip, hc]
              rfl
            rw [hfs]
            by_cases hm : dmem ik' st.2 = true
            · rw [hm]
              simp only [if_true]
              rcases hinv.2 with h0 | h0
              · exfalso
                unfold dmem at hm
                rw [h0] at hm
                simp at hm
              · exact h0
            · rw [eq_false_of_ne_true hm]
              simp only [Bool.false_eq_true, if_false]
              rw [hget, hstrip, dget?_dput_self]
          · have hfs : (["en"] : List String).findSome? (fun loc =>
                let v := pystrip (dgetD [("en", dgetD canonPlaceholders ik' "")] loc "")
                if v = "" then none else some v) = some (dgetD canonPlaceholders ik' "") := by
              rw [List.findSome?_cons]
              simp only [hget, hstrip, hc]
              simp [hc]
            rw [hfs, dget?_dput_self]
        refine ⟨⟨hinv.1, Or.inr hresolved⟩, fun h => h, ?_, ?_⟩
        · intro _
          rw [hresolved]
          rfl
        · intro _
          refine ⟨fun hns => ?_, fun _ => ?_⟩
          · rw [hsk] at hns
            exact absurd hns (by simp)
          · rw [hresolved]
            rfl
      · have hne : ¬ ik = ik' := fun he => hik2 he.symm
        have hunch : dget? (structPut st.2 ik' ["en"]
            (rowValues ["Key", "Module", "module_index", "en"] ["en"] [a, b, c, d])) ik
            = dget? st.2 ik := dget?_structPut_ne _ _ _ _ _ hne
        refine ⟨⟨hinv.1, by rw [hunch]; exact hinv.2⟩, fun h => h,
          by rw [show (dget? (structPut st.2 ik' ["en"] _) ik) = dget? st.2 ik from hunch]; exact fun h => h,
          fun htr => ?_⟩
        injection htr with htr'
        exact absurd htr' hik2
    · rw [eq_false_of_ne_true hsk]
      simp only [Bool.false_eq_true, if_false]
      by_cases hik2 : ik' = ik
      · subst hik2
        have hcanon : pystrip d = dgetD canonPlaceholders ik' "" := hgood hik
        have hres : dget? (dput st.1 ik'
            (translatableResult ["Key", "Module", "module_index", "en"] ["en"] [a, b, c, d])) ik'
            = some [("en", dgetD canonPlaceholders ik' "")] := by
          rw [dget?_dput_self, translatableResult_std, hcanon]
        refine ⟨⟨Or.inr hres, hinv.2⟩, ?_, fun h => h, ?_⟩
        · intro _
          rw [hres]
          rfl
        · intro _
          refine ⟨fun _ => ?_, fun hs => ?_⟩
          · rw [hres]
            rfl
          · rw [hs] at hsk
            exact absurd rfl hsk
      · have hne : ¬ ik = ik' := fun he => hik2 he.symm
        have hunch : dget? (dput st.1 ik'
            (translatableResult ["Key", "Module", "module_index", "en"] ["en"] [a, b, c, d])) ik
            = dget? st.1 ik := dget?_dput_ne _ _ _ _ hne
        refine ⟨⟨by rw [hunch]; exact hinv.1, hinv.2⟩,
          by rw [show dget? (dput st.1 ik' _) ik = dget? st.1 ik from hunch]; exact fun h => h,
          fun h => h, fun htr => ?_⟩
        injection htr with htr'
        exact absurd htr' hik2

theorem c5_fold
    (ik : String) (rows : List (List String))
    (hrows : ∀ row ∈ rows, ∃ a b c d, row = [a, b, c, d] ∧
        (rowInternalKey? ["Key", "Module", "module_index", "en"] row = some ik →
          pystrip d = dgetD canonPlaceholders ik ""))
    (st : Dict (Dict String) × Dict String)
    (hinv : (dget? st.1 ik = none ∨
              dget? st.1 ik = some [("en", dgetD canonPlaceholders ik "")])
          ∧ (dget? st.2 ik = none ∨
              dget? st.2 ik = some (dgetD canonPlaceholders ik ""))) :
    ((dget? (rows.foldl (processRow ["Key", "Module", "module_index", "en"] ["en"]) st).1 ik = none ∨
      dget? (rows.foldl (processRow ["Key", "Module", "module_index", "en"] ["en"]) st).1 ik
        = some [("en", dgetD canonPlaceholders ik "")])
     ∧ (dget? (rows.foldl (processRow ["Key", "Module", "module_index", "en"] ["en"]) st).2 ik = none ∨
        dget? (rows.foldl (processRow ["Key", "Module", "module_index", "en"] ["en"]) st).2 ik
          = some (dgetD canonPlaceholders ik "")))
    ∧ ((dget? st.1 ik).isSome = true →
        (dget? (rows.foldl (processRow ["Key", "Module", "module_index", "en"] ["en"]) st).1 ik).isSome = true)
    ∧ ((dget? st.2 ik).isSome = true →
        (dget? (rows.foldl (processRow ["Key", "Module", "module_index", "en"] ["en"]) st).2 ik).isSome = true)
    ∧ (∀ row ∈ rows, rowInternalKey? ["Key", "Module", "module_index", "en"] row = some ik →
        (STRUCTURE_KEYS.contains ik = false →
          (dget? (rows.foldl (processRow ["Key", "Module", "module_index", "en"] ["en"]) st).1 ik).isSome = true)
        ∧ (STRUCTURE_KEYS.contains ik = true →
          (dget? (rows.foldl (processRow ["Key", "Module", "module_index", "en"] ["en"]) st).2 ik).isSome = true)) := by
  induction rows generalizing st with
  | nil =>
    refine ⟨hinv, fun h => h, fun h => h, ?_⟩
    intro row hmem
    simp at hmem
  | cons row t ih =>
    have hrow := hrows row (List.mem_cons_self row t)
    obtain ⟨hinv', hmono1, hmono2, htrig⟩ := c5_step st ik row hrow hinv
    obtain ⟨ih_inv, ih_mono1, ih_mono2, ih_trig⟩ :=
      ih (fun r hr => hrows r (List.mem_cons_of_mem row hr))
        (processRow ["Key", "Module", "module_index", "en"] ["en"] st row) hinv'
    simp only [List.foldl_cons]
    refine ⟨ih_inv, fun h => ih_mono1 (hmono1 h), fun h => ih_mono2 (hmono2 h), ?_⟩
    intro r hr htr
    rcases List.mem_cons.mp hr with he | ht
    · subst he
      obtain ⟨htrig1, htrig2⟩ := htrig htr
      exact ⟨fun hs => ih_mono1 (htrig1 hs), fun hs => ih_mono2 (htrig2 hs)⟩
    · exact ih_trig r ht htr

set_option maxRecDepth 10000 in
/-- **C5** (round trip): generate the blank input-template CSV for any module
selection with the default `["en"]` locale column, fill the `en` column with
arbitrary values (`vals`), and feed the sheet back through
`load_translations`.  Every field whose internal content key was left
entirely untouched (every row resolving to that key still carries its
template placeholder) loads back as exactly its template placeholder value:
in the structure table for structural keys and as the single-locale `en` row
in the translation table for translatable keys. -/
theorem c5_roundtrip
    (modules : List String) (vals : List String)
    (e : TemplateEntry) (v : String) (ik : String)
    (hmem : (e, v) ∈ List.zip (genEntries modules) vals)
    (hik : rowInternalKey? ["Key", "Module", "module_index", "en"]
        [e.csvKey, e.moduleName, toString e.moduleIdx, v] = some ik)
    (huntouched : ∀ p ∈ List.zip (genEntries modules) vals,
        rowInternalKey? ["Key", "Module", "module_index", "en"]
          [(p : TemplateEntry × String).1.csvKey, p.1.moduleName,
            toString p.1.moduleIdx, p.2] = some ik →
        p.2 = p.1.placeholder) :
    (STRUCTURE_KEYS.contains ik = true →
      dget? (load_translations
          ⟨stdHeader ["en"],
           (List.zip (genEntries modules) vals).map
             (fun p => [p.1.csvKey, p.1.moduleName, toString p.1.moduleIdx, p.2])⟩
          none).2 ik = some e.placeholder)
    ∧ (STRUCTURE_KEYS.contains ik = false →
      dget? (load_translations
          ⟨stdHeader ["en"],
           (List.zip (genEntries modules) vals).map
             (fun p => [p.1.csvKey, p.1.moduleName, toString p.1.moduleIdx, p.2])⟩
          none).1 ik = some [("en", e.placeholder)]) := by
  have hF : stdHeader ["en"] = ["Key", "Module", "module_index", "en"] := rfl
  -- the fact package for a template entry occurring in the generated rows
  have entry_facts : ∀ e' : TemplateEntry, e' ∈ genEntries modules →
      ¬ normKey e'.csvKey = "" ∧ ¬ normKey e'.moduleName = ""
      ∧ ∀ v' : String,
          rowInternalKey? ["Key", "Module", "module_index", "en"]
            [e'.csvKey, e'.moduleName, toString e'.moduleIdx, v']
          = resolveModuleField (normKey e'.moduleName) (normKey e'.csvKey) := by
    intro e' he'
    obtain ⟨rows0, hmod, hkp⟩ := genEntriesAux_source modules [] e' he'
    obtain ⟨hk, hm, _, _, _⟩ := template_entries_good (e'.moduleName, rows0) hmod
      (e'.csvKey, e'.placeholder) hkp
    refine ⟨hk, hm, ?_⟩
    intro v'
    rw [rowInternalKey?_std, if_neg hk, if_neg hm]
  have canon_facts : ∀ e' : TemplateEntry, e' ∈ genEntries modules →
      resolveModuleField (normKey e'.moduleName) (normKey e'.csvKey) = some ik →
      dget? canonPlaceholders ik = some e'.placeholder ∧ pystrip e'.placeholder = e'.placeholder := by
    intro e' he' hres
    obtain ⟨rows0, hmod, hkp⟩ := genEntriesAux_source modules [] e' he'
    obtain ⟨_, _, _, hcanon, hstrip⟩ := template_entries_good (e'.moduleName, rows0) hmod
      (e'.csvKey, e'.placeholder) hkp
    rw [hres] at hcanon
    exact ⟨hcanon, hstrip⟩
  have he : e ∈ genEntries modules := (List.of_mem_zip hmem).1
  obtain ⟨hek, hem, herow⟩ := entry_facts e he
  have heres : resolveModuleField (normKey e.moduleName) (normKey e.csvKey) = some ik := by
    rw [← herow v]
    exact hik
  obtain ⟨hcanon, hstrip⟩ := canon_facts e he heres
  have hcanonD : dgetD canonPlaceholders ik "" = e.placeholder := by
    unfold dgetD
    rw [hcanon]
    rfl
  -- the loaded tables are the fold over the generated rows
  have hload : load_translations
      ⟨stdHeader ["en"],
       (List.zip (genEntries modules) vals).map
         (fun p => [p.1.csvKey, p.1.moduleName, toString p.1.moduleIdx, p.2])⟩ none
      = ((List.zip (genEntries modules) vals).map
          (fun p => [p.1.csvKey, p.1.moduleName, toString p.1.moduleIdx, p.2])).foldl
          (processRow ["Key", "Module", "module_index", "en"] ["en"]) ([], []) := by
    simp only [load_translations]
    rw [hF]
    have : get_csv_locales ["Key", "Module", "module_index", "en"] = ["en"] := by decide
    rw [this]
    rfl
  have hrows : ∀ row ∈ (List.zip (genEntries modules) vals).map
      (fun p => [p.1.csvKey, p.1.moduleName, toString p.1.moduleIdx, p.2]),
      ∃ a b c d, row = [a, b, c, d] ∧
        (rowInternalKey? ["Key", "Module", "module_index", "en"] row = some ik →
          pystrip d = dgetD canonPlaceholders ik "") := by
    intro row hrmem
    obtain ⟨p, hp, hrow⟩ := List.mem_map.mp hrmem
    refine ⟨p.1.csvKey, p.1.moduleName, toString p.1.moduleIdx, p.2, hrow.symm, ?_⟩
    intro htr
    have hp1 : p.1 ∈ genEntries modules := (List.of_mem_zip (by
      show (p.1, p.2) ∈ _
      simpa using hp)).1
    obtain ⟨hk', hm', herow'⟩ := entry_facts p.1 hp1
    have hres' : resolveModuleField (normKey p.1.moduleName) (normKey p.1.csvKey) = some ik := by
      rw [← herow' p.2]
      rw [← hrow] at htr
      exact htr
    obtain ⟨hcanon', hstrip'⟩ := canon_facts p.1 hp1 hres'
    have hunt : p.2 = p.1.placeholder := by
      apply huntouched p hp
      rw [hrow]
      exact htr
    rw [hunt, hstrip']
    unfold dgetD
    rw [hcanon']
    rfl
  obtain ⟨hinvf, _, _, htrigf⟩ := c5_fold ik _ hrows ([], [])
    ⟨Or.inl rfl, Or.inl rfl⟩
  have hrowmem : [e.csvKey, e.moduleName, toString e.moduleIdx, v]
      ∈ (List.zip (genEntries modules) vals).map
        (fun p => [p.1.csvKey, p.1.moduleName, toString p.1.moduleIdx, p.2]) :=
    List.mem_map.mpr ⟨(e, v), hmem, rfl⟩
  obtain ⟨htrig1, htrig2⟩ := htrigf _ hrowmem hik
  constructor
  · intro hs
    rw [hload]
    have hpres := htrig2 hs
    rcases hinvf.2 with h0 | h0
    · rw [h0] at hpres
      simp at hpres
    · rw [h0, hcanonD]
  · intro hs
    rw [hload]
    have hpres := htrig1 hs
    rcases hinvf.1 with h0 | h0
    · rw [h0] at hpres
      simp at hpres
    · rw [h0, hcanonD]

set_option maxRecDepth 10000 in
/-- Witness for C5: the `hero_module` template with every `en` cell left at
its placeholder; the structural field `cta_alias` loads back as its
placeholder `hero-cta`. -/
theorem c5_roundtrip_witness :
    dget? (load_translations
        ⟨stdHeader ["en"],
         (List.zip (genEntries ["hero_module"])
            ["", "", "", "", "", "", "", "", "", "", "hero-cta"]).map
           (fun p => [p.1.csvKey, p.1.moduleName, toString p.1.moduleIdx, p.2])⟩
        none).2 "cta_alias" = some "hero-cta" :=
  (c5_roundtrip ["hero_module"] ["", "", "", "", "", "", "", "", "", "", "hero-cta"]
    ⟨"cta_alias", "hero_module", 1, "hero-cta"⟩ "hero-cta" "cta_alias"
    (by decide) (by decide) (by decide)).1 (by decide)
